import Mathlib

/-!
Verification development for the AI-Resume-Maker export subsystem.

The repository contains three download-service variants:
* `DownloadService` (src/lib/downloadService.ts) — the basic service;
* `ImprovedDownloadService` (lib file shipped as unnamed part_003) — retry loop
  with `maxAttempts = 3, baseDelay = 1000, maxDelay = 10000, backoffMultiplier = 2`;
* `RobustDownloadService` — two versions exist: the full-retry version
  (unnamed part_005, `maxAttempts = 5, baseDelay = 2000, maxDelay = 30000,
  backoffMultiplier = 2, timeoutMs = 60000`) and the simplified version in
  src/lib/robustDownloadService.ts whose `executeWithRetry` runs the operation
  exactly once.

This file embeds those services shallowly: effectful orchestration becomes
pure trace-producing functions over an explicit environment describing the
outcomes of the external calls (DOM lookups, html2canvas, blob creation,
file-save methods), with timer waits accumulated on a virtual clock.
-/

namespace ResumeMaker

/-- Substring test: `strContains s pat` holds when `pat` occurs inside `s`
(the embedding of JavaScript `String.prototype.includes`). -/
def strContains (s pat : String) : Bool :=
  decide (pat.data <:+: s.data)

/-! ## Data model (src/components/ResumeBuilder.tsx, `ResumeData`) -/

/-- `ResumeData.personalInfo` from ResumeBuilder.tsx. -/
structure PersonalInfo where
  fullName : String
  email : String
  phone : String
  linkedIn : String
  github : String
  tagline : String
  objective : String
  profilePicture : Option String := none
  targetRole : Option String := none
  industry : Option String := none
deriving DecidableEq, Repr

/-- One entry of `ResumeData.experience`. -/
structure ExperienceEntry where
  id : String
  company : String
  role : String
  duration : String
  achievements : List String
deriving DecidableEq, Repr

/-- One entry of `ResumeData.education`. -/
structure EducationEntry where
  id : String
  degree : String
  institution : String
  year : String
deriving DecidableEq, Repr

/-- One entry of `ResumeData.certifications`. -/
structure CertificationEntry where
  id : String
  name : String
  issuer : String
  year : String
deriving DecidableEq, Repr

/-- `ResumeData` from ResumeBuilder.tsx. -/
structure ResumeData where
  personalInfo : PersonalInfo
  skills : List String
  experience : List ExperienceEntry
  education : List EducationEntry
  certifications : List CertificationEntry
deriving DecidableEq, Repr

/-! ## Progress events (`DownloadProgress`) and the export trace alphabet -/

/-- The closed `stage` enumeration of `DownloadProgress`. -/
inductive Stage where
  | preparing
  | detecting
  | loading
  | generating
  | downloading
  | complete
  | error
  | retrying
deriving DecidableEq, Repr

/-- A `DownloadProgress` record pushed through the progress callback. -/
structure Prog where
  stage : Stage
  progress : Nat
  message : String
  attempt : Option Nat := none
  maxAttempts : Option Nat := none
  substage : Option String := none
deriving DecidableEq, Repr

/-- The browser file-save mechanisms attempted by `createDownloadLink`. -/
inductive SaveMethod where
  | anchorLink
  | fileSaver
  | dataUrl
  | windowOpen
deriving DecidableEq, Repr

/-- Observable actions of an export run: progress callbacks, save-method
attempts, a successfully triggered file save, the manual-instructions
overlay, and the construction of a Word `Document`. -/
inductive Event where
  | prog (p : Prog)
  | tried (m : SaveMethod)
  | saved (m : SaveMethod)
  | overlayShown (autoDismissMs : Nat)
  | docBuilt
deriving DecidableEq, Repr

/-- The stages of the progress events of a trace, in emission order. -/
def stagesOf (l : List Event) : List Stage :=
  l.filterMap fun e =>
    match e with
    | .prog p => some p.stage
    | _ => none

/-- Counts the events with a particular stage. -/
def stageCount (st : Stage) (l : List Event) : Nat :=
  (stagesOf l).countP (fun s => s = st)

/-- Counts the `saved` events of a trace. -/
def savedCount (l : List Event) : Nat :=
  l.countP fun e => match e with | .saved _ => true | _ => false

/-- Counts the `overlayShown` events of a trace. -/
def overlayCount (l : List Event) : Nat :=
  l.countP fun e => match e with | .overlayShown _ => true | _ => false

/-- Counts the `docBuilt` events of a trace. -/
def docBuiltCount (l : List Event) : Nat :=
  l.countP fun e => match e with | .docBuilt => true | _ => false

/-- The save methods invoked by a trace, in invocation order. -/
def triedMethods (l : List Event) : List SaveMethod :=
  l.filterMap fun e => match e with | .tried m => some m | _ => none

/-! ## Retry configuration -/

/-- `RetryConfig` of the full-retry `RobustDownloadService` (part_005). -/
structure RetryConfig where
  maxAttempts : Nat
  baseDelay : Nat
  maxDelay : Nat
  backoffMultiplier : Nat
  timeoutMs : Nat
deriving DecidableEq, Repr

/-- The static configuration value of the full-retry `RobustDownloadService`:
`{ maxAttempts: 5, baseDelay: 2000, maxDelay: 30000, backoffMultiplier: 2,
timeoutMs: 60000 }`. -/
def robustRetryConfig : RetryConfig :=
  { maxAttempts := 5, baseDelay := 2000, maxDelay := 30000
    backoffMultiplier := 2, timeoutMs := 60000 }

/-- `RetryConfig` of `ImprovedDownloadService` (part_003) — no `timeoutMs`. -/
structure ImprovedRetryConfig where
  maxAttempts : Nat
  baseDelay : Nat
  maxDelay : Nat
  backoffMultiplier : Nat
deriving DecidableEq, Repr

/-- The static configuration value of `ImprovedDownloadService`:
`{ maxAttempts: 3, baseDelay: 1000, maxDelay: 10000, backoffMultiplier: 2 }`. -/
def improvedRetryConfig : ImprovedRetryConfig :=
  { maxAttempts := 3, baseDelay := 1000, maxDelay := 10000, backoffMultiplier := 2 }

namespace RobustDownloadService

/-- `RobustDownloadService.calculateRetryDelay` (part_005 lines 66-69 and
src/lib/robustDownloadService.ts lines 66-69):
`min(baseDelay * backoffMultiplier ** attempt, maxDelay)`. -/
def calculateRetryDelay (cfg : RetryConfig) (attempt : Nat) : Nat :=
  min (cfg.baseDelay * cfg.backoffMultiplier ^ attempt) cfg.maxDelay

end RobustDownloadService

namespace ImprovedDownloadService

/-- `ImprovedDownloadService.calculateRetryDelay` (part_003 lines 44-47):
`min(baseDelay * backoffMultiplier ** (attempt - 1), maxDelay)`. -/
def calculateRetryDelay (cfg : ImprovedRetryConfig) (attempt : Nat) : Nat :=
  min (cfg.baseDelay * cfg.backoffMultiplier ^ (attempt - 1)) cfg.maxDelay

end ImprovedDownloadService

/-- The delay the full-retry `RobustDownloadService.executeWithRetry` waits
before attempt `n` (it calls `calculateRetryDelay(attempt - 1)`,
part_005 line 411). -/
def robustDelayBeforeAttempt (n : Nat) : Nat :=
  RobustDownloadService.calculateRetryDelay robustRetryConfig (n - 1)

/-- The delay `ImprovedDownloadService.downloadWithRetry` waits before attempt
`n` (it calls `calculateRetryDelay(attempt - 1)`, part_003 line 188). -/
def improvedDelayBeforeAttempt (n : Nat) : Nat :=
  ImprovedDownloadService.calculateRetryDelay improvedRetryConfig (n - 1)

end ResumeMaker

namespace ResumeMaker

/-! ## The retry controller, part_005 `executeWithRetry` (lines 395-459)

An operation is modelled as a per-attempt record: the progress/action events
it emits, the virtual time it consumes (its explicit `delay(ms)` waits), and
its outcome (`Except.error msg` embeds a thrown error carrying `msg`). -/

/-- One invocation of the `operation` passed to the retry controller. -/
structure OpRun (α : Type) where
  events : List Event
  dur : Nat
  result : Except String α
deriving Repr

/-- The observable outcome of a full controller run: the per-attempt event
segments (each retry attempt contributes the `retrying` event it emits
followed by the operation's own events), the settled result, how many times
the operation was invoked, and the virtual clock at the end. -/
structure Run (α : Type) where
  segments : List (List Event)
  result : Except String α
  invocations : Nat
  elapsed : Nat
deriving Repr

/-- All events of a run, flattened in emission order. -/
def Run.events {α : Type} (r : Run α) : List Event :=
  r.segments.flatten

namespace RobustDownloadService

/-- The error classification of part_005 lines 446-450: errors whose message
contains `not find` or `detection strategies` abort the retry loop. -/
def nonRecoverable (msg : String) : Bool :=
  strContains msg "not find" || strContains msg "detection strategies"

/-- The `retrying` progress event emitted before waiting out `retryDelay`
(part_005 lines 413-420). -/
def retryingProg (operationName : String) (attempt maxAttempts retryDelay : Nat) : Prog :=
  let secs := (retryDelay + 500) / 1000
  { stage := .retrying, progress := 10
    message := s!"Retrying {operationName}..."
    attempt := some attempt, maxAttempts := some maxAttempts
    substage := some s!"waiting {secs}s" }

/-- The final error thrown after the retry loop exits (part_005 line 458):
`"{operationName} failed after {maxAttempts} attempts and {secs}s. Last
error: {lastError?.message}"`. -/
def finalFailureMsg (cfg : RetryConfig) (operationName : String) (elapsed : Nat)
    (lastError : Option String) : String :=
  let ma := cfg.maxAttempts
  let secs := (elapsed + 500) / 1000
  let lm := match lastError with | some m => m | none => "undefined"
  operationName ++ s!" failed after {ma} attempts and {secs}s. Last error: " ++ lm

/-- `"Operation timed out after {timeoutMs}ms"` (part_005 line 406). -/
def timedOutMsg (cfg : RetryConfig) : String :=
  let t := cfg.timeoutMs
  s!"Operation timed out after {t}ms"

/-- The body of the `for` loop of `executeWithRetry`, by remaining fuel
(`fuel` counts the loop iterations still allowed; the loop runs `attempt`
from 1 to `maxAttempts`). `segs` accumulates the event segments of the
attempts already run, `elapsed` is the virtual clock (`Date.now() -
startTime`), `lastError` the last caught error message. -/
def executeWithRetryAux {α : Type} (cfg : RetryConfig) (op : Nat → OpRun α)
    (operationName : String) :
    Nat → Nat → Nat → Option String → Nat → List (List Event) → Run α
  | 0, _attempt, elapsed, lastError, invocs, segs =>
    { segments := segs
      result := .error (finalFailureMsg cfg operationName elapsed lastError)
      invocations := invocs, elapsed := elapsed }
  | Nat.succ fuel, attempt, elapsed, _lastError, invocs, segs =>
    if cfg.timeoutMs < elapsed then
      { segments := segs, result := .error (timedOutMsg cfg)
        invocations := invocs, elapsed := elapsed }
    else
      let d := if 1 < attempt then calculateRetryDelay cfg (attempt - 1) else 0
      let pre : List Event :=
        if 1 < attempt then
          [.prog (retryingProg operationName attempt cfg.maxAttempts d)]
        else []
      let r := op attempt
      let seg := pre ++ r.events
      let elapsed2 := elapsed + d + r.dur
      match r.result with
      | .ok v =>
        { segments := segs ++ [seg], result := .ok v
          invocations := invocs + 1, elapsed := elapsed2 }
      | .error m =>
        if nonRecoverable m || attempt = cfg.maxAttempts then
          { segments := segs ++ [seg]
            result := .error (finalFailureMsg cfg operationName elapsed2 (some m))
            invocations := invocs + 1, elapsed := elapsed2 }
        else
          executeWithRetryAux cfg op operationName fuel (attempt + 1) elapsed2
            (some m) (invocs + 1) (segs ++ [seg])

/-- `RobustDownloadService.executeWithRetry` of part_005: runs `operation` up
to `maxAttempts` times with exponential backoff, aborting early on
non-recoverable errors or when the total wall-clock budget is exceeded. -/
def executeWithRetry {α : Type} (cfg : RetryConfig) (op : Nat → OpRun α)
    (operationName : String) : Run α :=
  executeWithRetryAux cfg op operationName cfg.maxAttempts 1 0 none 0 []

end RobustDownloadService

namespace ImprovedDownloadService

/-- The final error thrown by `downloadWithRetry` (part_003 line 217):
`"{operationName} failed after {maxAttempts} attempts. Last error:
{lastError.message}"`. -/
def finalFailureMsg (cfg : ImprovedRetryConfig) (operationName : String)
    (lastError : Option String) : String :=
  let ma := cfg.maxAttempts
  let lm := match lastError with | some m => m | none => "undefined"
  operationName ++ s!" failed after {ma} attempts. Last error: " ++ lm

/-- The `retrying` progress event of part_003 lines 179-185. -/
def retryingProg (operationName : String) (attempt maxAttempts : Nat) : Prog :=
  { stage := .retrying, progress := 10
    message := s!"Retrying {operationName} (attempt {attempt}/{maxAttempts})..."
    attempt := some attempt, maxAttempts := some maxAttempts }

/-- The loop body of `ImprovedDownloadService.downloadWithRetry`
(part_003 lines 169-218): like the robust controller but with no wall-clock
timeout and no structural-error short-circuit. -/
def downloadWithRetryAux {α : Type} (cfg : ImprovedRetryConfig) (op : Nat → OpRun α)
    (operationName : String) :
    Nat → Nat → Nat → Option String → Nat → List (List Event) → Run α
  | 0, _attempt, elapsed, lastError, invocs, segs =>
    { segments := segs
      result := .error (finalFailureMsg cfg operationName lastError)
      invocations := invocs, elapsed := elapsed }
  | Nat.succ fuel, attempt, elapsed, _lastError, invocs, segs =>
    let d := if 1 < attempt then calculateRetryDelay cfg (attempt - 1) else 0
    let pre : List Event :=
      if 1 < attempt then [.prog (retryingProg operationName attempt cfg.maxAttempts)]
      else []
    let r := op attempt
    let seg := pre ++ r.events
    let elapsed2 := elapsed + d + r.dur
    match r.result with
    | .ok v =>
      { segments := segs ++ [seg], result := .ok v
        invocations := invocs + 1, elapsed := elapsed2 }
    | .error m =>
      if attempt = cfg.maxAttempts then
        { segments := segs ++ [seg]
          result := .error (finalFailureMsg cfg operationName (some m))
          invocations := invocs + 1, elapsed := elapsed2 }
      else
        downloadWithRetryAux cfg op operationName fuel (attempt + 1) elapsed2
          (some m) (invocs + 1) (segs ++ [seg])

/-- `ImprovedDownloadService.downloadWithRetry` of part_003. -/
def downloadWithRetry {α : Type} (cfg : ImprovedRetryConfig) (op : Nat → OpRun α)
    (operationName : String) : Run α :=
  downloadWithRetryAux cfg op operationName cfg.maxAttempts 1 0 none 0 []

end ImprovedDownloadService

end ResumeMaker

namespace ResumeMaker

/-- C1: for the retry controller configured with `baseDelay = 2000`,
`backoffMultiplier = 2`, `maxDelay = 30000` (the full-retry
`RobustDownloadService`), the delays actually computed before attempts 2..6
are `4000, 8000, 16000, 30000, 30000` — i.e. `min(2000 * 2 ^ (n - 1), 30000)`
before attempt `n`, not the claimed `min(2000 * 2 ^ (n - 2), 30000)`
(`2000, 4000, 8000, 16000, 30000`). The first retry waits 4000 ms, not the
documented 2000 ms ("Start with 2-second delays"). The `ImprovedDownloadService`
variant does implement the claimed `n - 2` exponent (with its own
`baseDelay = 1000, maxDelay = 10000`): its delays before attempts 2 and 3 are
`1000, 2000`. -/
theorem c1_retry_delays :
    List.map robustDelayBeforeAttempt [2, 3, 4, 5, 6] =
        [4000, 8000, 16000, 30000, 30000] ∧
    robustDelayBeforeAttempt 2 ≠ 2000 ∧
    List.map (fun n => min (2000 * 2 ^ (n - 2)) 30000) [2, 3, 4, 5, 6] =
        [2000, 4000, 8000, 16000, 30000] ∧
    List.map improvedDelayBeforeAttempt [2, 3] = [1000, 2000] := by
  decide

end ResumeMaker

namespace ResumeMaker

/-- A string contains any suffix of itself. -/
theorem strContains_append_right (p m : String) : strContains (p ++ m) m = true := by
  have h : m.data <:+: (p ++ m).data := by
    rw [String.data_append]
    exact (List.suffix_append p.data m.data).isInfix
  simpa [strContains] using h

/-- The final retry-controller error message contains the last underlying
error message. -/
theorem robust_finalFailureMsg_contains (cfg : RetryConfig) (opName : String)
    (elapsed : Nat) (m : String) :
    strContains (RobustDownloadService.finalFailureMsg cfg opName elapsed (some m)) m
      = true := by
  simpa [RobustDownloadService.finalFailureMsg] using
    strContains_append_right (opName ++ _) m

/-- The final `downloadWithRetry` error message contains the last underlying
error message. -/
theorem improved_finalFailureMsg_contains (cfg : ImprovedRetryConfig)
    (opName : String) (m : String) :
    strContains (ImprovedDownloadService.finalFailureMsg cfg opName (some m)) m
      = true := by
  simpa [ImprovedDownloadService.finalFailureMsg] using
    strContains_append_right (opName ++ _) m

/-- C2: an operation that throws a transient (non-structural) error on every
invocation is invoked exactly `maxAttempts` times — 5 by the full-retry
`RobustDownloadService.executeWithRetry` (when each invocation is
instantaneous, so the wall-clock budget is not hit) and 3 by
`ImprovedDownloadService.downloadWithRetry` — and the controller then rejects
with a single error whose message contains the last underlying error
message. -/
theorem c2_retry_ceiling
    (op : Nat → OpRun Unit) (opName : String) (msgs : Nat → String)
    (herr : ∀ k, (op k).result = .error (msgs k))
    (htrans : ∀ k, RobustDownloadService.nonRecoverable (msgs k) = false)
    (hdur : ∀ k, (op k).dur = 0)
    (iop : Nat → OpRun Unit) (iopName : String) (imsgs : Nat → String)
    (iherr : ∀ k, (iop k).result = .error (imsgs k)) :
    ((RobustDownloadService.executeWithRetry robustRetryConfig op opName).invocations = 5 ∧
      ∃ m, (RobustDownloadService.executeWithRetry robustRetryConfig op opName).result
          = .error m ∧
        strContains m (msgs 5) = true) ∧
    ((ImprovedDownloadService.downloadWithRetry improvedRetryConfig iop iopName).invocations = 3 ∧
      ∃ m, (ImprovedDownloadService.downloadWithRetry improvedRetryConfig iop iopName).result
          = .error m ∧
        strContains m (imsgs 3) = true) := by
  constructor
  · simp only [RobustDownloadService.executeWithRetry,
      RobustDownloadService.executeWithRetryAux, herr, htrans, hdur, robustRetryConfig,
      RobustDownloadService.calculateRetryDelay]
    norm_num
    exact robust_finalFailureMsg_contains _ opName _ _
  · simp only [ImprovedDownloadService.downloadWithRetry,
      ImprovedDownloadService.downloadWithRetryAux, iherr, improvedRetryConfig,
      ImprovedDownloadService.calculateRetryDelay]
    norm_num
    exact improved_finalFailureMsg_contains _ iopName _

/-- A concrete always-transiently-failing operation: no events, instantaneous,
throws `capture failed` on every invocation. -/
def alwaysTransientOp : Nat → OpRun Unit :=
  fun _ => { events := [], dur := 0, result := .error "capture failed" }

/-- Witness for C2 at a concrete operation. -/
theorem c2_retry_ceiling_witness :
    ((RobustDownloadService.executeWithRetry robustRetryConfig alwaysTransientOp
        "PNG generation").invocations = 5 ∧
      ∃ m, (RobustDownloadService.executeWithRetry robustRetryConfig alwaysTransientOp
          "PNG generation").result = .error m ∧
        strContains m "capture failed" = true) ∧
    ((ImprovedDownloadService.downloadWithRetry improvedRetryConfig alwaysTransientOp
        "PNG generation").invocations = 3 ∧
      ∃ m, (ImprovedDownloadService.downloadWithRetry improvedRetryConfig alwaysTransientOp
          "PNG generation").result = .error m ∧
        strContains m "capture failed" = true) :=
  c2_retry_ceiling alwaysTransientOp "PNG generation" (fun _ => "capture failed")
    (fun _ => rfl)
    (fun _ => (by decide : RobustDownloadService.nonRecoverable "capture failed" = false))
    (fun _ => rfl)
    alwaysTransientOp "PNG generation" (fun _ => "capture failed") (fun _ => rfl)

/-- C3: an operation whose first throw is classified structural (its message
contains `not find` or `detection strategies`, e.g. the element-detection
failure message) is invoked exactly once by the full-retry controller, which
rejects at once: no backoff delay is waited (the virtual clock advances only
by the operation's own duration), no retry events are emitted, and the
rejection message carries the structural error message. -/
theorem c3_structural_short_circuit
    (op : Nat → OpRun Unit) (opName : String) (m : String)
    (herr : (op 1).result = .error m)
    (hstruct : RobustDownloadService.nonRecoverable m = true) :
    (RobustDownloadService.executeWithRetry robustRetryConfig op opName).invocations = 1 ∧
    (RobustDownloadService.executeWithRetry robustRetryConfig op opName).elapsed
        = (op 1).dur ∧
    (RobustDownloadService.executeWithRetry robustRetryConfig op opName).events
        = (op 1).events ∧
    ∃ fm, (RobustDownloadService.executeWithRetry robustRetryConfig op opName).result
        = .error fm ∧
      strContains fm m = true := by
  simp only [RobustDownloadService.executeWithRetry,
    RobustDownloadService.executeWithRetryAux, herr, hstruct, robustRetryConfig,
    Run.events]
  norm_num
  exact robust_finalFailureMsg_contains _ opName _ _

/-- A concrete structurally-failing operation: the element-detection failure
of part_005 line 108. -/
def structuralFailOp : Nat → OpRun Unit :=
  fun _ =>
    { events := [], dur := 0
      result := .error
        "Could not find any suitable resume element. Tried 7 detection strategies." }

/-- Witness for C3 at a concrete operation. -/
theorem c3_structural_short_circuit_witness :
    (RobustDownloadService.executeWithRetry robustRetryConfig structuralFailOp
        "PNG generation").invocations = 1 ∧
    (RobustDownloadService.executeWithRetry robustRetryConfig structuralFailOp
        "PNG generation").elapsed = (structuralFailOp 1).dur ∧
    (RobustDownloadService.executeWithRetry robustRetryConfig structuralFailOp
        "PNG generation").events = (structuralFailOp 1).events ∧
    ∃ fm, (RobustDownloadService.executeWithRetry robustRetryConfig structuralFailOp
        "PNG generation").result = .error fm ∧
      strContains fm
        "Could not find any suitable resume element. Tried 7 detection strategies."
        = true :=
  c3_structural_short_circuit structuralFailOp "PNG generation" _ rfl (by decide)

end ResumeMaker

namespace ResumeMaker

/-! ## Filename sanitization

Three variants exist in the source:
* basic `DownloadService.sanitizeFilename` (downloadService.ts lines 81-83):
  `filename.replace(/[^a-z0-9.\-_]/gi, '_')`;
* `ImprovedDownloadService.sanitizeFilename` (part_003 lines 522-524): the
  same followed by `.replace(/_{2,}/g, '_')`;
* `RobustDownloadService.sanitizeFilename` (robustDownloadService.ts lines
  411-416 and part_005 lines 620-625): the same followed by
  `.replace(/^_+|_+$/g, '')`. -/

/-- Membership in the character class `[a-z0-9.\-_]` under the `i` flag. -/
def allowedChar (c : Char) : Bool :=
  decide (('a' ≤ c ∧ c ≤ 'z') ∨ ('A' ≤ c ∧ c ≤ 'Z') ∨ ('0' ≤ c ∧ c ≤ '9') ∨
    c = '.' ∨ c = '-' ∨ c = '_')

/-- `replace(/[^a-z0-9.\-_]/gi, '_')` acting on a single character. -/
def replaceDisallowed (c : Char) : Char :=
  if allowedChar c then c else '_'

/-- `replace(/_{2,}/g, '_')`: collapse every run of two or more underscores
to a single underscore. -/
def collapseUnderscoreRuns : List Char → List Char
  | [] => []
  | [c] => [c]
  | a :: b :: rest =>
    if a = '_' ∧ b = '_' then collapseUnderscoreRuns (b :: rest)
    else a :: collapseUnderscoreRuns (b :: rest)

/-- Removes the trailing run of underscores (the `_+$` alternative of
`/^_+|_+$/g`). -/
def trimTrailing : List Char → List Char
  | [] => []
  | c :: rest =>
    match trimTrailing rest with
    | [] => if c = '_' then [] else [c]
    | r => c :: r

/-- `replace(/^_+|_+$/g, '')`: drop the leading and the trailing run of
underscores. -/
def trimUnderscores (l : List Char) : List Char :=
  trimTrailing (l.dropWhile (· == '_'))

namespace DownloadService

/-- Basic `DownloadService.sanitizeFilename` (downloadService.ts 81-83). -/
def sanitizeFilename (s : String) : String :=
  String.mk (s.data.map replaceDisallowed)

end DownloadService

namespace ImprovedDownloadService

/-- `ImprovedDownloadService.sanitizeFilename` (part_003 522-524). -/
def sanitizeFilename (s : String) : String :=
  String.mk (collapseUnderscoreRuns (s.data.map replaceDisallowed))

end ImprovedDownloadService

namespace RobustDownloadService

/-- `RobustDownloadService.sanitizeFilename` (robustDownloadService.ts
411-416, part_005 620-625). -/
def sanitizeFilename (s : String) : String :=
  String.mk (trimUnderscores (collapseUnderscoreRuns (s.data.map replaceDisallowed)))

end RobustDownloadService

end ResumeMaker

namespace ResumeMaker

/-! ### Sanitization lemmas -/

/-- The no-repeated-underscore invariant produced by `/_{2,}/g → '_'`. -/
def NoDoubleUnderscore (l : List Char) : Prop :=
  l.Chain' fun a b => ¬(a = '_' ∧ b = '_')

/-- Executable check for the no-repeated-underscore property. -/
def noDoubleB : List Char → Bool
  | [] => true
  | [_] => true
  | a :: b :: rest => !(a == '_' && b == '_') && noDoubleB (b :: rest)

/-- Replacing disallowed characters always lands in the allowed class. -/
theorem allowedChar_replaceDisallowed (c : Char) :
    allowedChar (replaceDisallowed c) = true := by
  unfold replaceDisallowed
  split
  · assumption
  · decide

/-- Mapping the per-character replacement over an already-clean list is the
identity. -/
theorem map_replaceDisallowed_of_allowed :
    ∀ l : List Char, (∀ c ∈ l, allowedChar c = true) → l.map replaceDisallowed = l := by
  intro l h
  induction l with
  | nil => rfl
  | cons c t ih =>
    simp only [List.map_cons, List.cons.injEq]
    refine ⟨?_, ih fun x hx => h x (List.mem_cons_of_mem _ hx)⟩
    have hc := h c (List.mem_cons_self _ _)
    simp [replaceDisallowed, hc]

/-- Collapsing underscore runs keeps the head of the list. -/
theorem collapseUnderscoreRuns_head? :
    ∀ l : List Char, (collapseUnderscoreRuns l).head? = l.head?
  | [] => rfl
  | [c] => rfl
  | a :: b :: rest => by
    by_cases h : a = '_' ∧ b = '_'
    · rw [collapseUnderscoreRuns, if_pos h, collapseUnderscoreRuns_head? (b :: rest)]
      simp [h.1, h.2]
    · rw [collapseUnderscoreRuns, if_neg h]
      rfl

/-- Collapsing underscore runs only keeps characters of the input. -/
theorem mem_of_mem_collapseUnderscoreRuns :
    ∀ l : List Char, ∀ c ∈ collapseUnderscoreRuns l, c ∈ l
  | [] => by simp [collapseUnderscoreRuns]
  | [c] => by simp [collapseUnderscoreRuns]
  | a :: b :: rest => by
    intro c hc
    by_cases h : a = '_' ∧ b = '_'
    · rw [collapseUnderscoreRuns, if_pos h] at hc
      exact List.mem_cons_of_mem _ (mem_of_mem_collapseUnderscoreRuns (b :: rest) c hc)
    · rw [collapseUnderscoreRuns, if_neg h] at hc
      rw [List.mem_cons] at hc
      rcases hc with rfl | hc
      · exact List.mem_cons_self _ _
      · exact List.mem_cons_of_mem _ (mem_of_mem_collapseUnderscoreRuns (b :: rest) c hc)

/-- The collapse pass establishes the no-repeated-underscore invariant. -/
theorem noDouble_collapseUnderscoreRuns :
    ∀ l : List Char, NoDoubleUnderscore (collapseUnderscoreRuns l)
  | [] => List.chain'_nil
  | [c] => List.chain'_singleton c
  | a :: b :: rest => by
    by_cases h : a = '_' ∧ b = '_'
    · rw [collapseUnderscoreRuns, if_pos h]
      exact noDouble_collapseUnderscoreRuns (b :: rest)
    · rw [collapseUnderscoreRuns, if_neg h]
      refine List.chain'_cons'.mpr ⟨?_, noDouble_collapseUnderscoreRuns (b :: rest)⟩
      intro y hy
      rw [collapseUnderscoreRuns_head? (b :: rest)] at hy
      simp only [List.head?_cons, Option.mem_def, Option.some.injEq] at hy
      subst hy
      exact h

/-- The collapse pass is the identity on lists already satisfying the
invariant. -/
theorem collapseUnderscoreRuns_eq_self :
    ∀ l : List Char, NoDoubleUnderscore l → collapseUnderscoreRuns l = l
  | [] => fun _ => rfl
  | [c] => fun _ => rfl
  | a :: b :: rest => fun h => by
    have hR := (List.chain'_cons.mp h).1
    have ht := (List.chain'_cons.mp h).2
    rw [collapseUnderscoreRuns, if_neg hR, collapseUnderscoreRuns_eq_self (b :: rest) ht]

/-- Trailing-trim produces a prefix of its input. -/
theorem trimTrailing_isPre : ∀ l : List Char, trimTrailing l <+: l
  | [] => List.prefix_refl []
  | c :: rest => by
    rw [trimTrailing]
    rcases hr : trimTrailing rest with _ | ⟨x, xs⟩
    · show (if c = '_' then [] else [c]) <+: c :: rest
      by_cases hc : c = '_'
      · rw [if_pos hc]; exact List.nil_prefix
      · rw [if_neg hc]; exact List.cons_prefix_cons.mpr ⟨rfl, List.nil_prefix⟩
    · show c :: (x :: xs) <+: c :: rest
      exact List.cons_prefix_cons.mpr ⟨rfl, hr ▸ trimTrailing_isPre rest⟩

end ResumeMaker

namespace ResumeMaker

/-- Trailing-trim leaves no trailing underscore. -/
theorem trimTrailing_getLast_ne :
    ∀ l : List Char, (trimTrailing l).getLast? ≠ some '_'
  | [] => by simp [trimTrailing]
  | c :: rest => by
    rw [trimTrailing]
    rcases hr : trimTrailing rest with _ | ⟨x, xs⟩
    · show (if c = '_' then [] else [c]).getLast? ≠ some '_'
      by_cases hc : c = '_'
      · rw [if_pos hc]; simp
      · rw [if_neg hc]; simpa using hc
    · show (c :: x :: xs).getLast? ≠ some '_'
      have h := trimTrailing_getLast_ne rest
      rw [hr] at h
      rwa [List.getLast?_cons_cons]

/-- Lists with no trailing underscore are fixed by trailing-trim. -/
theorem trimTrailing_eq_self :
    ∀ l : List Char, l.getLast? ≠ some '_' → trimTrailing l = l
  | [] => fun _ => rfl
  | [c] => fun h => by
    have hc : c ≠ '_' := by simpa using h
    rw [trimTrailing]
    show (if c = '_' then [] else [c]) = [c]
    rw [if_neg hc]
  | c :: y :: ys => fun h => by
    have h2 : (y :: ys).getLast? ≠ some '_' := by
      rwa [List.getLast?_cons_cons] at h
    have he := trimTrailing_eq_self (y :: ys) h2
    rw [trimTrailing, he]

/-- Trailing-trim keeps the head of the list (or empties it). -/
theorem trimTrailing_head? :
    ∀ l : List Char, trimTrailing l = [] ∨ (trimTrailing l).head? = l.head?
  | [] => Or.inl rfl
  | c :: rest => by
    rw [trimTrailing]
    rcases hr : trimTrailing rest with _ | ⟨x, xs⟩
    · by_cases hc : c = '_'
      · left
        show (if c = '_' then [] else [c]) = []
        rw [if_pos hc]
      · right
        show (if c = '_' then [] else [c]).head? = _
        rw [if_neg hc]
        rfl
    · right
      rfl

/-- The head of `dropWhile p l` does not satisfy `p`. -/
theorem head?_dropWhile_not (p : α → Bool) :
    ∀ l : List α, ∀ c ∈ (l.dropWhile p).head?, p c = false
  | [] => by simp
  | a :: t => by
    intro c hc
    rw [List.dropWhile_cons] at hc
    split at hc
    · exact head?_dropWhile_not p t c hc
    · rename_i hpa
      simp only [List.head?_cons, Option.mem_def, Option.some.injEq] at hc
      subst hc
      simpa using hpa

/-- `dropWhile` is the identity when the head already fails the predicate. -/
theorem dropWhile_eq_self_of_head (p : α → Bool) (l : List α)
    (h : ∀ c ∈ l.head?, p c = false) : l.dropWhile p = l := by
  cases l with
  | nil => rfl
  | cons a t =>
    have ha := h a rfl
    rw [List.dropWhile_cons_of_neg (by simp [ha])]

/-- The two-sided trim only keeps an infix of its input. -/
theorem trimUnderscores_isInf (l : List Char) : trimUnderscores l <:+: l :=
  ((trimTrailing_isPre _).isInfix).trans ((List.dropWhile_suffix _).isInfix)

/-- The two-sided trim preserves the no-repeated-underscore invariant. -/
theorem noDouble_trimUnderscores (l : List Char) (h : NoDoubleUnderscore l) :
    NoDoubleUnderscore (trimUnderscores l) :=
  List.Chain'.infix h (trimUnderscores_isInf l)

/-- After the two-sided trim the head is not an underscore. -/
theorem trimUnderscores_head? (l : List Char) :
    ∀ c ∈ (trimUnderscores l).head?, (c == '_') = false := by
  intro c hc
  unfold trimUnderscores at hc
  rcases trimTrailing_head? (l.dropWhile (· == '_')) with he | hh
  · rw [he] at hc
    simp at hc
  · rw [hh] at hc
    exact head?_dropWhile_not _ _ c hc

/-- After the two-sided trim the last character is not an underscore. -/
theorem trimUnderscores_getLast (l : List Char) :
    (trimUnderscores l).getLast? ≠ some '_' :=
  trimTrailing_getLast_ne _

/-- The two-sided trim is idempotent. -/
theorem trimUnderscores_idem (l : List Char) :
    trimUnderscores (trimUnderscores l) = trimUnderscores l := by
  have h1 : (trimUnderscores l).dropWhile (· == '_') = trimUnderscores l :=
    dropWhile_eq_self_of_head _ _ (trimUnderscores_head? l)
  show trimTrailing ((trimUnderscores l).dropWhile (· == '_')) = trimUnderscores l
  rw [h1]
  exact trimTrailing_eq_self _ (trimUnderscores_getLast l)

/-- Every character of the fully sanitized output is in the allowed class. -/
theorem robust_sanitize_allowed (s : String) :
    ∀ c ∈ (RobustDownloadService.sanitizeFilename s).data, allowedChar c = true := by
  intro c hc
  show allowedChar c = true
  have h1 : c ∈ collapseUnderscoreRuns (s.data.map replaceDisallowed) :=
    (trimUnderscores_isInf _).subset hc
  have h2 : c ∈ s.data.map replaceDisallowed :=
    mem_of_mem_collapseUnderscoreRuns _ c h1
  rcases List.mem_map.mp h2 with ⟨d, _, rfl⟩
  exact allowedChar_replaceDisallowed d

end ResumeMaker

namespace ResumeMaker

/-- The improved (collapse-only) sanitized output is also fully allowed. -/
theorem improved_sanitize_allowed (s : String) :
    ∀ c ∈ (ImprovedDownloadService.sanitizeFilename s).data, allowedChar c = true := by
  intro c hc
  have h2 : c ∈ s.data.map replaceDisallowed :=
    mem_of_mem_collapseUnderscoreRuns _ c hc
  rcases List.mem_map.mp h2 with ⟨d, _, rfl⟩
  exact allowedChar_replaceDisallowed d

/-- C4: each of the three `sanitizeFilename` variants is idempotent —
sanitizing an already-sanitized filename returns it unchanged, with no
double-underscoring — and sanitizing `"John/Doe:Resume?.pdf"` with the full
(robust) sanitizer yields `"John_Doe_Resume_.pdf"`: only characters of the
case-insensitive class `[a-z0-9.\-_]`, no repeated underscores, and no
leading or trailing underscore. -/
theorem c4_sanitize_idempotent :
    (∀ s, RobustDownloadService.sanitizeFilename (RobustDownloadService.sanitizeFilename s)
        = RobustDownloadService.sanitizeFilename s) ∧
    (∀ s, ImprovedDownloadService.sanitizeFilename (ImprovedDownloadService.sanitizeFilename s)
        = ImprovedDownloadService.sanitizeFilename s) ∧
    (∀ s, DownloadService.sanitizeFilename (DownloadService.sanitizeFilename s)
        = DownloadService.sanitizeFilename s) ∧
    RobustDownloadService.sanitizeFilename "John/Doe:Resume?.pdf" = "John_Doe_Resume_.pdf" ∧
    "John_Doe_Resume_.pdf".data.all allowedChar = true ∧
    noDoubleB "John_Doe_Resume_.pdf".data = true ∧
    "John_Doe_Resume_.pdf".data.head? ≠ some '_' ∧
    "John_Doe_Resume_.pdf".data.getLast? ≠ some '_' := by
  refine ⟨?_, ?_, ?_, by decide, by decide, by decide, by decide, by decide⟩
  · intro s
    show String.mk (trimUnderscores (collapseUnderscoreRuns
        ((RobustDownloadService.sanitizeFilename s).data.map replaceDisallowed)))
      = RobustDownloadService.sanitizeFilename s
    rw [map_replaceDisallowed_of_allowed _ (robust_sanitize_allowed s)]
    show String.mk (trimUnderscores (collapseUnderscoreRuns
        (trimUnderscores (collapseUnderscoreRuns (s.data.map replaceDisallowed))))) = _
    rw [collapseUnderscoreRuns_eq_self _
        (noDouble_trimUnderscores _ (noDouble_collapseUnderscoreRuns _))]
    show String.mk (trimUnderscores (trimUnderscores
        (collapseUnderscoreRuns (s.data.map replaceDisallowed)))) = _
    rw [trimUnderscores_idem]
    rfl
  · intro s
    show String.mk (collapseUnderscoreRuns
        ((ImprovedDownloadService.sanitizeFilename s).data.map replaceDisallowed))
      = ImprovedDownloadService.sanitizeFilename s
    rw [map_replaceDisallowed_of_allowed _ (improved_sanitize_allowed s)]
    show String.mk (collapseUnderscoreRuns
        (collapseUnderscoreRuns (s.data.map replaceDisallowed))) = _
    rw [collapseUnderscoreRuns_eq_self _ (noDouble_collapseUnderscoreRuns _)]
    rfl
  · intro s
    show String.mk ((DownloadService.sanitizeFilename s).data.map replaceDisallowed)
      = DownloadService.sanitizeFilename s
    rw [map_replaceDisallowed_of_allowed _ (fun c hc => by
      rcases List.mem_map.mp hc with ⟨d, _, rfl⟩
      exact allowedChar_replaceDisallowed d)]

end ResumeMaker

namespace ResumeMaker

/-! ## Word document construction

`DownloadService.downloadAsWord` (downloadService.ts 224-423) and the
full-retry `RobustDownloadService.downloadAsWord` (part_005 816-1016) build
the same `Document` children from `ResumeData`. The simplified
`RobustDownloadService.downloadAsWord` (robustDownloadService.ts 597-652)
builds a fixed skeleton instead. Paragraphs are modelled structurally. -/

/-- A docx `TextRun` as constructed by the services. -/
structure TextRun where
  text : String
  bold : Bool := false
  italics : Bool := false
  size : Nat
  color : String := ""
deriving DecidableEq, Repr

/-- The docx heading levels used. -/
inductive HeadingLevel where
  | heading1
  | heading2
deriving DecidableEq, Repr

/-- The docx alignment used. -/
inductive Alignment where
  | center
deriving DecidableEq, Repr

/-- A docx `Paragraph` as constructed by the services: either built from
text runs or a plain-text paragraph (`new Paragraph({ text: '' })`). -/
structure Para where
  runs : List TextRun := []
  plainText : Option String := none
  heading : Option HeadingLevel := none
  alignment : Option Alignment := none
deriving DecidableEq, Repr

/-- `new Paragraph({ text: '' })`, the spacer paragraph. -/
def spacerPara : Para := { plainText := some "" }

/-- A section heading paragraph: bold, size 24, color `2563eb`, HEADING_2. -/
def sectionHeading (t : String) : Para :=
  { runs := [{ text := t, bold := true, size := 24, color := "2563eb" }]
    heading := some .heading2 }

/-- The `EDUCATION` section heading paragraph. -/
def eduHeading : Para := sectionHeading "EDUCATION"

/-- Number of occurrences of the `EDUCATION` heading paragraph. -/
def eduHeadingCount (l : List Para) : Nat :=
  l.countP fun p => decide (p = eduHeading)

namespace DownloadService

/-- The name header paragraph (downloadService.ts 229-240). -/
def nameHeaderPara (rd : ResumeData) : Para :=
  { runs := [{ text := rd.personalInfo.fullName, bold := true, size := 32, color := "2563eb" }]
    heading := some .heading1, alignment := some .center }

/-- The contact-information paragraph (lines 243-254). -/
def contactPara (rd : ResumeData) : Para :=
  let joined := String.intercalate " | "
    (([rd.personalInfo.email, rd.personalInfo.phone]).filter (· != ""))
  { runs := [{ text := joined, size := 22 }], alignment := some .center }

/-- The optional links paragraph (lines 256-269). -/
def linksBlock (rd : ResumeData) : List Para :=
  let joined := String.intercalate " | "
    (([rd.personalInfo.linkedIn, rd.personalInfo.github]).filter (· != ""))
  if rd.personalInfo.linkedIn ≠ "" ∨ rd.personalInfo.github ≠ "" then
    [{ runs := [{ text := joined, size := 22 }], alignment := some .center }]
  else []

/-- The optional objective section (lines 271-293). -/
def objectiveBlock (rd : ResumeData) : List Para :=
  if rd.personalInfo.objective ≠ "" then
    [spacerPara, sectionHeading "OBJECTIVE",
     { runs := [{ text := rd.personalInfo.objective, size := 22 }] }]
  else []

/-- The paragraphs of one experience entry (lines 309-343). -/
def experienceParas (e : ExperienceEntry) : List Para :=
  [{ runs := [{ text := e.role, bold := true, size := 22 },
              { text := " - " ++ e.company, size := 22 }] },
   { runs := [{ text := e.duration, italics := true, size := 20 }] }] ++
  e.achievements.map (fun a => { runs := [{ text := "• " ++ a, size := 20 }] }) ++
  [spacerPara]

/-- The optional experience section (lines 295-344). -/
def experienceBlock (rd : ResumeData) : List Para :=
  if rd.experience ≠ [] then
    [spacerPara, sectionHeading "PROFESSIONAL EXPERIENCE"] ++
      rd.experience.flatMap experienceParas
  else []

/-- The optional skills section (lines 346-368). -/
def skillsBlock (rd : ResumeData) : List Para :=
  if rd.skills ≠ [] then
    [spacerPara, sectionHeading "SKILLS",
     { runs := [{ text := String.intercalate " • " rd.skills, size := 22 }] }]
  else []

/-- One education entry paragraph: `degree - institution (year)` (line 388). -/
def educationEntryPara (e : EducationEntry) : Para :=
  { runs := [{ text := e.degree ++ " - " ++ e.institution ++ " (" ++ e.year ++ ")", size := 22 }] }

/-- The optional education section (lines 370-394). -/
def educationBlock (rd : ResumeData) : List Para :=
  if rd.education ≠ [] then
    [spacerPara, eduHeading] ++ rd.education.map educationEntryPara
  else []

/-- One certification entry paragraph: `name - issuer (year)` (line 414). -/
def certificationEntryPara (c : CertificationEntry) : Para :=
  { runs := [{ text := c.name ++ " - " ++ c.issuer ++ " (" ++ c.year ++ ")", size := 22 }] }

/-- The optional certifications section (lines 396-420). -/
def certificationsBlock (rd : ResumeData) : List Para :=
  if rd.certifications ≠ [] then
    [spacerPara, sectionHeading "CERTIFICATIONS"] ++
      rd.certifications.map certificationEntryPara
  else []

/-- The `children` array of the Word `Document` built by
`DownloadService.downloadAsWord` (downloadService.ts 224-423; the full-retry
`RobustDownloadService.downloadAsWord` of part_005 builds the identical
structure). -/
def wordParagraphs (rd : ResumeData) : List Para :=
  [nameHeaderPara rd, contactPara rd] ++ linksBlock rd ++ objectiveBlock rd ++
    experienceBlock rd ++ skillsBlock rd ++ educationBlock rd ++
    certificationsBlock rd

end DownloadService

namespace RobustDownloadService

/-- The fixed `children` skeleton of the simplified
`RobustDownloadService.downloadAsWord` (robustDownloadService.ts 597-652):
name header, contact line, spacer, a `RESUME CONTENT` heading and a
placeholder paragraph — no education section at all. -/
def wordParagraphs (rd : ResumeData) : List Para :=
  let nameText := if rd.personalInfo.fullName ≠ "" then
    rd.personalInfo.fullName else "Resume"
  let joined := String.intercalate " | "
    (([rd.personalInfo.email, rd.personalInfo.phone]).filter (· != ""))
  let contactText := if joined ≠ "" then joined else "Contact information"
  [ { runs := [{ text := nameText, bold := true, size := 32, color := "2563eb" }]
      heading := some .heading1, alignment := some .center },
    { runs := [{ text := contactText, size := 22 }], alignment := some .center },
    spacerPara,
    sectionHeading "RESUME CONTENT",
    { runs := [{ text := "This is your resume content. Edit this document to customize your resume.", size := 20 }] } ]

end RobustDownloadService

end ResumeMaker

namespace ResumeMaker

/-- A paragraph with no heading level is not the EDUCATION heading. -/
theorem ne_eduHeading_of_heading_none {p : Para} (h : p.heading = none) :
    p ≠ eduHeading := by
  intro he
  rw [he] at h
  simp [eduHeading, sectionHeading] at h

/-- `eduHeadingCount` is additive over append. -/
theorem eduHeadingCount_append (l₁ l₂ : List Para) :
    eduHeadingCount (l₁ ++ l₂) = eduHeadingCount l₁ + eduHeadingCount l₂ := by
  simp [eduHeadingCount, List.countP_append]

/-- `eduHeadingCount` vanishes when no member is the EDUCATION heading. -/
theorem eduHeadingCount_eq_zero {l : List Para} (h : ∀ p ∈ l, p ≠ eduHeading) :
    eduHeadingCount l = 0 := by
  unfold eduHeadingCount
  rw [List.countP_eq_zero]
  intro p hp
  simpa using h p hp

theorem count_firstTwo (rd : ResumeData) :
    eduHeadingCount [DownloadService.nameHeaderPara rd, DownloadService.contactPara rd] = 0 := by
  apply eduHeadingCount_eq_zero
  intro p hp
  simp only [List.mem_cons, List.mem_singleton, List.not_mem_nil, or_false] at hp
  rcases hp with rfl | rfl
  · intro he
    have hh := congrArg Para.heading he
    simp [DownloadService.nameHeaderPara, eduHeading, sectionHeading] at hh
  · exact ne_eduHeading_of_heading_none rfl

theorem count_linksBlock (rd : ResumeData) :
    eduHeadingCount (DownloadService.linksBlock rd) = 0 := by
  by_cases h : rd.personalInfo.linkedIn ≠ "" ∨ rd.personalInfo.github ≠ ""
  · apply eduHeadingCount_eq_zero
    intro p hp
    simp only [DownloadService.linksBlock, if_pos h, List.mem_singleton] at hp
    subst hp
    exact ne_eduHeading_of_heading_none rfl
  · simp [DownloadService.linksBlock, if_neg h, eduHeadingCount]

theorem count_objectiveBlock (rd : ResumeData) :
    eduHeadingCount (DownloadService.objectiveBlock rd) = 0 := by
  by_cases h : rd.personalInfo.objective ≠ ""
  · apply eduHeadingCount_eq_zero
    intro p hp
    simp only [DownloadService.objectiveBlock, if_pos h, List.mem_cons,
      List.mem_singleton, List.not_mem_nil, or_false] at hp
    rcases hp with rfl | rfl | rfl
    · exact ne_eduHeading_of_heading_none rfl
    · decide
    · exact ne_eduHeading_of_heading_none rfl
  · simp [DownloadService.objectiveBlock, if_neg h, eduHeadingCount]

theorem count_experienceBlock (rd : ResumeData) :
    eduHeadingCount (DownloadService.experienceBlock rd) = 0 := by
  by_cases h : rd.experience ≠ []
  · apply eduHeadingCount_eq_zero
    intro p hp
    simp only [DownloadService.experienceBlock, if_pos h, List.mem_append,
      List.mem_cons, List.mem_singleton, List.not_mem_nil, or_false,
      List.mem_flatMap] at hp
    rcases hp with (rfl | rfl) | ⟨e, _, hpe⟩
    · exact ne_eduHeading_of_heading_none rfl
    · decide
    · simp only [DownloadService.experienceParas, List.mem_append, List.mem_cons,
        List.mem_singleton, List.not_mem_nil, or_false, List.mem_map] at hpe
      rcases hpe with ((rfl | rfl) | ⟨a, _, rfl⟩) | rfl
      · exact ne_eduHeading_of_heading_none rfl
      · exact ne_eduHeading_of_heading_none rfl
      · exact ne_eduHeading_of_heading_none rfl
      · exact ne_eduHeading_of_heading_none rfl
  · simp [DownloadService.experienceBlock, if_neg h, eduHeadingCount]

theorem count_skillsBlock (rd : ResumeData) :
    eduHeadingCount (DownloadService.skillsBlock rd) = 0 := by
  by_cases h : rd.skills ≠ []
  · apply eduHeadingCount_eq_zero
    intro p hp
    simp only [DownloadService.skillsBlock, if_pos h, List.mem_cons,
      List.mem_singleton, List.not_mem_nil, or_false] at hp
    rcases hp with rfl | rfl | rfl
    · exact ne_eduHeading_of_heading_none rfl
    · decide
    · exact ne_eduHeading_of_heading_none rfl
  · simp [DownloadService.skillsBlock, if_neg h, eduHeadingCount]

theorem count_certificationsBlock (rd : ResumeData) :
    eduHeadingCount (DownloadService.certificationsBlock rd) = 0 := by
  by_cases h : rd.certifications ≠ []
  · apply eduHeadingCount_eq_zero
    intro p hp
    simp only [DownloadService.certificationsBlock, if_pos h, List.mem_append,
      List.mem_cons, List.mem_singleton, List.not_mem_nil, or_false,
      List.mem_map] at hp
    rcases hp with (rfl | rfl) | ⟨c, _, rfl⟩
    · exact ne_eduHeading_of_heading_none rfl
    · decide
    · exact ne_eduHeading_of_heading_none rfl
  · simp [DownloadService.certificationsBlock, if_neg h, eduHeadingCount]

/-- C5 (amended): for the section-building Word export
(`DownloadService.downloadAsWord`, identical structure in part_005): an empty
education list produces no EDUCATION heading; a non-empty education list
produces exactly one EDUCATION heading immediately followed by one entry
paragraph per education record in input order. -/
theorem c5_education_section (rd : ResumeData) :
    (rd.education = [] → eduHeadingCount (DownloadService.wordParagraphs rd) = 0) ∧
    (rd.education ≠ [] →
      ∃ pre post, DownloadService.wordParagraphs rd
          = pre ++ eduHeading :: (rd.education.map DownloadService.educationEntryPara) ++ post ∧
        eduHeadingCount pre = 0 ∧ eduHeadingCount post = 0) := by
  constructor
  · intro h
    simp only [DownloadService.wordParagraphs, eduHeadingCount_append]
    rw [count_firstTwo, count_linksBlock, count_objectiveBlock, count_experienceBlock,
      count_skillsBlock, count_certificationsBlock]
    simp [DownloadService.educationBlock, h, eduHeadingCount]
  · intro h
    refine ⟨([DownloadService.nameHeaderPara rd, DownloadService.contactPara rd] ++
        DownloadService.linksBlock rd ++ DownloadService.objectiveBlock rd ++
        DownloadService.experienceBlock rd ++ DownloadService.skillsBlock rd) ++ [spacerPara],
      DownloadService.certificationsBlock rd, ?_, ?_, ?_⟩
    · simp only [DownloadService.wordParagraphs, DownloadService.educationBlock, if_pos h]
      simp [List.append_assoc]
    · simp only [eduHeadingCount_append]
      rw [count_firstTwo, count_linksBlock, count_objectiveBlock, count_experienceBlock,
        count_skillsBlock]
      have hs : eduHeadingCount [spacerPara] = 0 :=
        eduHeadingCount_eq_zero (by
          intro p hp
          simp only [List.mem_singleton] at hp
          subst hp
          exact ne_eduHeading_of_heading_none rfl)
      rw [hs]
    · exact count_certificationsBlock rd

/-- A `ResumeData` with one education record. -/
def rdWithEducation : ResumeData :=
  { personalInfo := { fullName := "Jane Doe", email := "", phone := "", linkedIn := ""
                      github := "", tagline := "", objective := "" }
    skills := [], experience := []
    education := [{ id := "1", degree := "BSc", institution := "MIT", year := "2020" }]
    certifications := [] }

/-- A `ResumeData` with an empty education list. -/
def rdNoEducation : ResumeData :=
  { personalInfo := { fullName := "Jane Doe", email := "", phone := "", linkedIn := ""
                      github := "", tagline := "", objective := "" }
    skills := [], experience := [], education := [], certifications := [] }

/-- C5 counterexample: the Word export of
src/lib/robustDownloadService.ts (`downloadAsWord`, lines 586-677) builds a
fixed skeleton document that contains no EDUCATION heading even when the
education list is non-empty, contradicting the claim for that cited
variant. -/
theorem c5_counterexample :
    rdWithEducation.education ≠ [] ∧
    eduHeadingCount (RobustDownloadService.wordParagraphs rdWithEducation) = 0 := by
  constructor
  · decide
  · decide

/-- Witness for C5 at concrete resume data. -/
theorem c5_education_section_witness :
    eduHeadingCount (DownloadService.wordParagraphs rdNoEducation) = 0 ∧
    ∃ pre post, DownloadService.wordParagraphs rdWithEducation
        = pre ++ eduHeading ::
            (rdWithEducation.education.map DownloadService.educationEntryPara) ++ post ∧
      eduHeadingCount pre = 0 ∧ eduHeadingCount post = 0 :=
  ⟨(c5_education_section rdNoEducation).1 rfl,
   (c5_education_section rdWithEducation).2 (by decide)⟩

end ResumeMaker

namespace ResumeMaker

/-! ## File-save fallback chains (`createDownloadLink`)

Each save method either triggers the save or throws; the environment records
which methods would succeed. The robust chain (robustDownloadService.ts
255-340, part_005 464-549) tries a manual anchor click, then FileSaver, then
a base64 data URL (only for blobs under 10 MB), and on total failure shows a
manual-instructions overlay auto-dismissed after 30000 ms instead of
throwing. The improved chain (part_003 452-520) tries FileSaver, then the
anchor click, then `window.open`, and throws when all fail. The basic chain
(downloadService.ts 53-79) tries FileSaver then the anchor click and throws
when both fail. -/

namespace RobustDownloadService

/-- Outcomes of the save methods available to the robust chain. -/
structure SaveEnv where
  anchorOk : Bool
  fileSaverOk : Bool
  blobSize : Nat
deriving DecidableEq, Repr

/-- `RobustDownloadService.createDownloadLink`: method 1 is the manual
anchor-element click, method 2 is FileSaver `saveAs`, method 3 is the
data-URL click guarded by `blob.size < 1024 * 1024 * 10`; if every method
fails, `showManualDownloadInstructions` presents the overlay (auto-removed
after 30000 ms) and nothing is thrown. -/
def createDownloadLink (env : SaveEnv) : List Event :=
  if env.anchorOk then
    [.tried .anchorLink, .saved .anchorLink]
  else if env.fileSaverOk then
    [.tried .anchorLink, .tried .fileSaver, .saved .fileSaver]
  else if env.blobSize < 10485760 then
    [.tried .anchorLink, .tried .fileSaver, .tried .dataUrl, .saved .dataUrl]
  else
    [.tried .anchorLink, .tried .fileSaver, .tried .dataUrl, .overlayShown 30000]

end RobustDownloadService

namespace ImprovedDownloadService

/-- Outcomes of the save methods available to the improved chain. -/
structure SaveEnv where
  fileSaverOk : Bool
  anchorOk : Bool
  windowOpenOk : Bool
deriving DecidableEq, Repr

/-- `ImprovedDownloadService.createDownloadLink` (part_003 452-520):
FileSaver first, then the manual anchor click, then `window.open`; throws
`All download methods failed...` when every method fails. -/
def createDownloadLink (env : SaveEnv) : List Event × Except String Unit :=
  if env.fileSaverOk then
    ([.tried .fileSaver, .saved .fileSaver], .ok ())
  else if env.anchorOk then
    ([.tried .fileSaver, .tried .anchorLink, .saved .anchorLink], .ok ())
  else if env.windowOpenOk then
    ([.tried .fileSaver, .tried .anchorLink, .tried .windowOpen, .saved .windowOpen], .ok ())
  else
    ([.tried .fileSaver, .tried .anchorLink, .tried .windowOpen],
      .error "All download methods failed. Please check browser settings and try again.")

end ImprovedDownloadService

namespace DownloadService

/-- Outcomes of the save methods available to the basic chain. -/
structure SaveEnv where
  fileSaverOk : Bool
  anchorOk : Bool
deriving DecidableEq, Repr

/-- Basic `DownloadService.createDownloadLink` (downloadService.ts 53-79):
FileSaver, then the manual anchor click; throws when both fail. -/
def createDownloadLink (env : SaveEnv) : List Event × Except String Unit :=
  if env.fileSaverOk then
    ([.tried .fileSaver, .saved .fileSaver], .ok ())
  else if env.anchorOk then
    ([.tried .fileSaver, .tried .anchorLink, .saved .anchorLink], .ok ())
  else
    ([.tried .fileSaver, .tried .anchorLink],
      .error "Unable to download file. Please check your browser settings.")

end DownloadService

/-- C7 counterexample: the robust fallback chain does not try the
library-provided save-as call first — with every method failing, the invoked
order is anchor click, FileSaver, data URL, so the first method tried is not
the FileSaver library call as the claim states. -/
theorem c7_counterexample :
    triedMethods (RobustDownloadService.createDownloadLink
        { anchorOk := false, fileSaverOk := false, blobSize := 0 })
      = [SaveMethod.anchorLink, SaveMethod.fileSaver, SaveMethod.dataUrl] ∧
    (triedMethods (RobustDownloadService.createDownloadLink
        { anchorOk := false, fileSaverOk := false, blobSize := 0 })).head?
      ≠ some SaveMethod.fileSaver := by
  constructor
  · decide
  · decide

/-- C7 (amended): the robust chain tries, in order, (1) the manual
anchor-with-download-attribute click, (2) the FileSaver library save-as call,
(3) the base64 data-URL click limited to blobs under 10 MB; whatever the
environment, it invokes a prefix of that order, triggers exactly one save or
shows the 30-second auto-dismissed manual overlay (exactly when all three
methods fail), and never throws. The improved variant instead tries
FileSaver, the anchor click, then `window.open`, and throws
`All download methods failed...` when all of its methods fail. -/
theorem c7_save_fallback_chain (env : RobustDownloadService.SaveEnv)
    (ienv : ImprovedDownloadService.SaveEnv) :
    triedMethods (RobustDownloadService.createDownloadLink env)
        <+: [SaveMethod.anchorLink, SaveMethod.fileSaver, SaveMethod.dataUrl] ∧
    savedCount (RobustDownloadService.createDownloadLink env) +
        overlayCount (RobustDownloadService.createDownloadLink env) = 1 ∧
    overlayCount (RobustDownloadService.createDownloadLink env)
      = (if env.anchorOk = false ∧ env.fileSaverOk = false ∧
            ¬ env.blobSize < 10485760 then 1 else 0) ∧
    ((RobustDownloadService.createDownloadLink env).getLast?
        = some (.overlayShown 30000) ∨
      ∃ m, (RobustDownloadService.createDownloadLink env).getLast? = some (.saved m)) ∧
    triedMethods (ImprovedDownloadService.createDownloadLink ienv).1
        <+: [SaveMethod.fileSaver, SaveMethod.anchorLink, SaveMethod.windowOpen] ∧
    (ImprovedDownloadService.createDownloadLink
        { fileSaverOk := false, anchorOk := false, windowOpenOk := false }).2
      = .error "All download methods failed. Please check browser settings and try again." := by
  rcases env with ⟨a, f, n⟩
  rcases ienv with ⟨jf, ja, jw⟩
  cases a <;> cases f <;> cases jf <;> cases ja <;> cases jw <;>
    by_cases hn : n < 10485760 <;>
      simp [RobustDownloadService.createDownloadLink,
        ImprovedDownloadService.createDownloadLink, triedMethods, savedCount,
        overlayCount, hn]

end ResumeMaker

namespace ResumeMaker

/-- `String.prototype.toLowerCase`, character by character. -/
def lowerStr (s : String) : String := String.mk (s.data.map Char.toLower)

namespace RobustDownloadService

/-- An abstract view of a DOM element carrying exactly the observations read
by `scoreElement` (part_005 114-173): attachment to `document.body`, offset
dimensions, computed display, bounding rect, trimmed text length, which of
the six resume keyword patterns match the text, child count, and the class
and id strings. -/
structure ElementModel where
  inBody : Bool
  offsetWidth : Nat
  offsetHeight : Nat
  displayNone : Bool
  rectWidth : Nat
  rectHeight : Nat
  textTrimLength : Nat
  kwExperience : Bool
  kwEducation : Bool
  kwSkills : Bool
  kwContact : Bool
  kwObjective : Bool
  kwCertifications : Bool
  childrenCount : Nat
  className : String
  idName : String
deriving Repr

/-- `RobustDownloadService.scoreElement` (part_005 114-173): early-outs to 0
for detached, zero-dimension or `display: none` elements, then a weighted sum
of size, content, keyword, structure and naming signals, a penalty for
nav/header/footer class names, clamped by `Math.max(0, score)`. -/
def scoreElement (e : ElementModel) : Int :=
  if ¬ e.inBody then 0
  else if e.offsetWidth = 0 ∨ e.offsetHeight = 0 then 0
  else if e.displayNone then 0
  else
    let s1 : Int := (if 400 ≤ e.rectHeight then 30 else 0) +
      (if 300 ≤ e.rectWidth then 20 else 0) +
      (if 800 ≤ e.rectHeight then 10 else 0)
    let s2 : Int := s1 + (if 100 < e.textTrimLength then 20 else 0) +
      (if 500 < e.textTrimLength then 10 else 0)
    let s3 : Int := s2 + (if e.kwExperience then 8 else 0) +
      (if e.kwEducation then 8 else 0) + (if e.kwSkills then 8 else 0) +
      (if e.kwContact then 8 else 0) + (if e.kwObjective then 8 else 0) +
      (if e.kwCertifications then 8 else 0)
    let s4 : Int := s3 + (if 3 ≤ e.childrenCount then 15 else 0) +
      (if 5 ≤ e.childrenCount then 10 else 0)
    let cn := lowerStr e.className
    let en := lowerStr e.idName
    let s5 : Int := s4 +
      (if strContains cn "resume" || strContains en "resume" then 25 else 0) +
      (if strContains cn "preview" || strContains en "preview" then 15 else 0) +
      (if strContains cn "template" then 10 else 0)
    let s6 : Int := s5 -
      (if strContains cn "nav" || strContains cn "header" || strContains cn "footer"
       then 20 else 0)
    max 0 s6

end RobustDownloadService

/-- C9: `scoreElement` is non-negative for every element, and returns exactly
0 for every element that is detached from `document.body`, has zero
`offsetWidth` or `offsetHeight`, or has computed display `none`; hence no
such hidden or detached element ever outscores a visible candidate with
positive score. -/
theorem c9_score_element (e : RobustDownloadService.ElementModel) :
    0 ≤ RobustDownloadService.scoreElement e ∧
    ((¬ e.inBody ∨ e.offsetWidth = 0 ∨ e.offsetHeight = 0 ∨ e.displayNone) →
      RobustDownloadService.scoreElement e = 0) ∧
    (∀ e2, (¬ e.inBody ∨ e.offsetWidth = 0 ∨ e.offsetHeight = 0 ∨ e.displayNone) →
      0 < RobustDownloadService.scoreElement e2 →
      RobustDownloadService.scoreElement e < RobustDownloadService.scoreElement e2) := by
  have hzero : (¬ e.inBody ∨ e.offsetWidth = 0 ∨ e.offsetHeight = 0 ∨ e.displayNone) →
      RobustDownloadService.scoreElement e = 0 := by
    intro hf
    unfold RobustDownloadService.scoreElement
    by_cases h1 : ¬ e.inBody
    · rw [if_pos h1]
    · rw [if_neg h1]
      rcases hf with h | h | h | h
      · exact absurd h h1
      · rw [if_pos (Or.inl h)]
      · rw [if_pos (Or.inr h)]
      · by_cases h2 : e.offsetWidth = 0 ∨ e.offsetHeight = 0
        · rw [if_pos h2]
        · rw [if_neg h2, if_pos h]
  refine ⟨?_, hzero, ?_⟩
  · unfold RobustDownloadService.scoreElement
    split
    · exact le_refl 0
    split
    · exact le_refl 0
    split
    · exact le_refl 0
    · exact le_max_left 0 _
  · intro e2 hf hpos
    rw [hzero hf]
    exact hpos

/-- A hidden element: zero height, `display: none`. -/
def hiddenElem : RobustDownloadService.ElementModel :=
  { inBody := true, offsetWidth := 500, offsetHeight := 0, displayNone := true
    rectWidth := 0, rectHeight := 0, textTrimLength := 0
    kwExperience := false, kwEducation := false, kwSkills := false
    kwContact := false, kwObjective := false, kwCertifications := false
    childrenCount := 0, className := "", idName := "" }

/-- A visible resume-preview element with positive score. -/
def visibleElem : RobustDownloadService.ElementModel :=
  { inBody := true, offsetWidth := 800, offsetHeight := 1000, displayNone := false
    rectWidth := 800, rectHeight := 1000, textTrimLength := 600
    kwExperience := true, kwEducation := true, kwSkills := true
    kwContact := true, kwObjective := true, kwCertifications := true
    childrenCount := 6, className := "resume-preview", idName := "resume-preview" }

/-- Witness for C9 at concrete elements. -/
theorem c9_score_element_witness :
    RobustDownloadService.scoreElement hiddenElem = 0 ∧
    RobustDownloadService.scoreElement hiddenElem
      < RobustDownloadService.scoreElement visibleElem :=
  ⟨(c9_score_element hiddenElem).2.1 (Or.inr (Or.inr (Or.inr rfl))),
   (c9_score_element hiddenElem).2.2 visibleElem (Or.inr (Or.inr (Or.inr rfl)))
     (by decide)⟩

end ResumeMaker

namespace ResumeMaker

/-! ## Export orchestrators as trace machines

The environment records the outcomes of the external calls: whether the
target element is found, its offset dimensions, the result of the
rasterization library, whether blob creation succeeds, and the save-method
outcomes. Each orchestrator returns its emitted events and its settled
result. -/

namespace DownloadService

/-- Environment of a capture-based basic export. -/
structure CaptureEnv where
  elementFound : Bool
  elemW : Nat
  elemH : Nat
  canvas : Except String (Nat × Nat)
deriving Repr

/-- The `try` block of `DownloadService.downloadAsPDF`
(downloadService.ts 85-187). -/
def downloadAsPDFBody (env : CaptureEnv) (senv : SaveEnv) (elementId : String) :
    List Event × Except String Unit :=
  let e1 : List Event := [.prog { stage := .preparing, progress := 10, message := "Preparing resume for PDF generation..." }]
  if ¬ env.elementFound then
    (e1, .error ("Element with ID \"" ++ elementId ++ "\" not found within 5000ms"))
  else
    let e2 := e1 ++ [.prog { stage := .generating, progress := 30, message := "Capturing resume content..." }]
    if env.elemW = 0 ∨ env.elemH = 0 then
      (e2, .error "Resume element is not visible or has no content")
    else
      match env.canvas with
      | .error m => (e2, .error m)
      | .ok (cw, ch) =>
        if cw = 0 ∨ ch = 0 then
          (e2, .error "Failed to capture resume content")
        else
          let e3 := e2 ++
            [.prog { stage := .generating, progress := 60, message := "Generating PDF document..." },
             .prog { stage := .downloading, progress := 90, message := "Downloading PDF..." }]
          let s := createDownloadLink senv
          match s.2 with
          | .error m => (e3 ++ s.1, .error m)
          | .ok _ => (e3 ++ s.1 ++ [.prog { stage := .complete, progress := 100, message := "PDF downloaded successfully!" }], .ok ())

/-- `DownloadService.downloadAsPDF` with its `catch` block: on any thrown
error it emits the terminal `error` progress event and rethrows
(downloadService.ts 188-199). -/
def downloadAsPDF (env : CaptureEnv) (senv : SaveEnv) (elementId : String) :
    List Event × Except String Unit :=
  match downloadAsPDFBody env senv elementId with
  | (ev, .ok _) => (ev, .ok ())
  | (ev, .error m) =>
    (ev ++ [.prog { stage := .error, progress := 0, message := "Failed to generate PDF: " ++ m }], .error m)

/-- The `try` block of `DownloadService.downloadAsWord`
(downloadService.ts 202-448). -/
def downloadAsWordBody (rd : ResumeData) (senv : SaveEnv) :
    List Event × Except String Unit :=
  let e1 : List Event := [.prog { stage := .preparing, progress := 10, message := "Preparing resume for Word document..." }]
  if rd.personalInfo.fullName = "" then
    (e1, .error "Resume data is incomplete")
  else
    let e2 := e1 ++
      [.prog { stage := .generating, progress := 50, message := "Creating Word document..." },
       .docBuilt,
       .prog { stage := .downloading, progress := 90, message := "Downloading Word document..." }]
    let s := createDownloadLink senv
    match s.2 with
    | .error m => (e2 ++ s.1, .error m)
    | .ok _ => (e2 ++ s.1 ++ [.prog { stage := .complete, progress := 100, message := "Word document downloaded successfully!" }], .ok ())

/-- `DownloadService.downloadAsWord` with its `catch` block
(downloadService.ts 450-461). -/
def downloadAsWord (rd : ResumeData) (senv : SaveEnv) :
    List Event × Except String Unit :=
  match downloadAsWordBody rd senv with
  | (ev, .ok _) => (ev, .ok ())
  | (ev, .error m) =>
    (ev ++ [.prog { stage := .error, progress := 0, message := "Failed to generate Word document: " ++ m }], .error m)

/-- The awaited part of the `try` block of `DownloadService.downloadAsPNG`
(downloadService.ts 468-512), up to but excluding the
`return new Promise(...)` at line 513. Only the errors thrown here are seen
by the `catch` block at line 540. -/
def downloadAsPNGBody (env : CaptureEnv) (elementId : String) :
    List Event × Except String Unit :=
  let e1 : List Event := [.prog { stage := .preparing, progress := 10, message := "Preparing resume for image capture..." }]
  if ¬ env.elementFound then
    (e1, .error ("Element with ID \"" ++ elementId ++ "\" not found within 5000ms"))
  else
    let e2 := e1 ++ [.prog { stage := .generating, progress := 50, message := "Capturing resume as image..." }]
    if env.elemW = 0 ∨ env.elemH = 0 then
      (e2, .error "Resume element is not visible or has no content")
    else
      match env.canvas with
      | .error m => (e2, .error m)
      | .ok (cw, ch) =>
        if cw = 0 ∨ ch = 0 then
          (e2, .error "Failed to capture resume content")
        else
          (e2 ++ [.prog { stage := .downloading, progress := 90, message := "Downloading image..." }], .ok ())

/-- The promise built from `canvas.toBlob` (downloadService.ts 513-538): a
null blob rejects with "Failed to generate image blob"; otherwise the file is
saved through `createDownloadLink`, whose failure rejects the promise and
whose success is followed by the `complete` progress event and resolution. -/
def pngBlobPromise (blobOk : Bool) (senv : SaveEnv) :
    List Event × Except String Unit :=
  if ¬ blobOk then
    ([], .error "Failed to generate image blob")
  else
    let s := createDownloadLink senv
    match s.2 with
    | .error m => (s.1, .error m)
    | .ok _ => (s.1 ++ [.prog { stage := .complete, progress := 100, message := "Image downloaded successfully!" }], .ok ())

/-- `DownloadService.downloadAsPNG` (downloadService.ts 464-551). The `toBlob`
promise is returned from inside the `try` without `await`, so a rejection of
that promise bypasses the `catch` block: it propagates to the caller with no
terminal `error` progress event. Only errors thrown in the awaited part reach
the `catch`, which emits the `error` event and rethrows. -/
def downloadAsPNG (env : CaptureEnv) (blobOk : Bool) (senv : SaveEnv)
    (elementId : String) : List Event × Except String Unit :=
  match downloadAsPNGBody env elementId with
  | (ev, .error m) =>
    (ev ++ [.prog { stage := .error, progress := 0, message := "Failed to generate image: " ++ m }], .error m)
  | (ev, .ok _) =>
    let p := pngBlobPromise blobOk senv
    (ev ++ p.1, p.2)

end DownloadService

namespace RobustDownloadService

/-- Environment of one attempt of the full-retry robust PNG export. -/
structure PngEnv where
  detectOk : Bool
  cap1 : Except String Unit
  cap2 : Except String Unit
  cap3 : Except String Unit
  blobOk : Bool
  save : SaveEnv
deriving Repr

/-- The per-strategy capture progress event (part_005 356-361). -/
def captureProg (i : Nat) (nm : String) : Prog :=
  { stage := .generating, progress := 50 + i * 10, message := "Capturing with " ++ nm ++ "...", substage := some nm }

/-- `captureElementAsCanvas` (part_005 272-390): the three quality presets in
order, a 1000 ms inter-strategy wait after a failed non-final preset, total
failure carries the last preset error. -/
def captureElementAsCanvas (e : PngEnv) : OpRun Unit :=
  match e.cap1 with
  | .ok _ => { events := [.prog (captureProg 0 "High Quality")], dur := 0, result := .ok () }
  | .error _ =>
    match e.cap2 with
    | .ok _ =>
      { events := [.prog (captureProg 0 "High Quality"), .prog (captureProg 1 "Medium Quality")]
        dur := 1000, result := .ok () }
    | .error _ =>
      match e.cap3 with
      | .ok _ =>
        { events := [.prog (captureProg 0 "High Quality"), .prog (captureProg 1 "Medium Quality"),
            .prog (captureProg 2 "Basic Quality")]
          dur := 2000, result := .ok () }
      | .error m3 =>
        { events := [.prog (captureProg 0 "High Quality"), .prog (captureProg 1 "Medium Quality"),
            .prog (captureProg 2 "Basic Quality")]
          dur := 2000
          result := .error ("All 3 canvas capture strategies failed. Last error: " ++ m3) }

/-- One attempt of the robust PNG export (the operation body passed to
`executeWithRetry` by `downloadAsPNG`, part_005 630-698): detection,
resource loading (`delay(1500)`), element preparation (`delay(300)` and
`delay(500)`), multi-preset capture, blob conversion and the save chain. -/
def pngOpRun (e : PngEnv) : OpRun Unit :=
  let detectEv : List Event := [.prog { stage := .detecting, progress := 5, message := "Locating resume content..." }]
  if ¬ e.detectOk then
    { events := detectEv, dur := 0
      result := .error "Could not find any suitable resume element. Tried 7 detection strategies." }
  else
    let e2 := detectEv ++
      [.prog { stage := .preparing, progress := 10, message := "Preparing resume for capture..." },
       .prog { stage := .loading, progress := 15, message := "Ensuring all resources are loaded...", substage := some "checking images" },
       .prog { stage := .loading, progress := 25, message := "Ensuring all resources are loaded...", substage := some "checking fonts" },
       .prog { stage := .loading, progress := 35, message := "Resources loaded, preparing for capture..." },
       .prog { stage := .generating, progress := 40, message := "Capturing resume as image..." }]
    let cap := captureElementAsCanvas e
    let durBase := 1500 + 300 + 500
    match cap.result with
    | .error m =>
      { events := e2 ++ cap.events, dur := durBase + cap.dur, result := .error m }
    | .ok _ =>
      let e3 := e2 ++ cap.events ++ [.prog { stage := .generating, progress := 80, message := "Processing image data..." }]
      if ¬ e.blobOk then
        { events := e3, dur := durBase + cap.dur
          result := .error "Failed to generate image blob" }
      else
        { events := e3 ++ createDownloadLink e.save ++
            [.prog { stage := .complete, progress := 100, message := "PNG downloaded successfully!" }]
          dur := durBase + cap.dur, result := .ok () }

/-- The full-retry `RobustDownloadService.downloadAsPNG` (part_005 630-698):
the PNG attempt body wrapped in `executeWithRetry`. -/
def downloadAsPNG (env : Nat → PngEnv) : Run Unit :=
  executeWithRetry robustRetryConfig (fun k => pngOpRun (env k)) "PNG generation"

/-- One attempt of the full-retry robust Word export (part_005 795-1042):
validation of `fullName`, document construction, then the save chain. -/
def wordOpRun (rd : ResumeData) (senv : SaveEnv) : OpRun Unit :=
  let e1 : List Event := [.prog { stage := .preparing, progress := 10, message := "Preparing resume data for Word..." }]
  if rd.personalInfo.fullName = "" then
    { events := e1, dur := 0
      result := .error "Resume data is incomplete - missing full name" }
  else
    { events := e1 ++
        [.prog { stage := .generating, progress := 50, message := "Creating Word document..." },
         .docBuilt,
         .prog { stage := .downloading, progress := 90, message := "Downloading Word document..." }] ++
        createDownloadLink senv ++
        [.prog { stage := .complete, progress := 100, message := "Word document downloaded successfully!" }]
      dur := 0, result := .ok () }

/-- The full-retry `RobustDownloadService.downloadAsWord` (part_005 795-1042). -/
def downloadAsWord (rd : ResumeData) (senv : Nat → SaveEnv) : Run Unit :=
  executeWithRetry robustRetryConfig (fun k => wordOpRun rd (senv k))
    "Word document generation"

end RobustDownloadService

end ResumeMaker

namespace ResumeMaker

/-- Whether an embedded operation result is a success. -/
def isOkB {ε α : Type} : Except ε α → Bool
  | .ok _ => true
  | .error _ => false

namespace RobustDownloadService

/-- The shape of one attempt segment produced by the retry controller: the
operation events, optionally preceded by one `retrying` progress event. -/
def SegShape {α : Type} (op : Nat → OpRun α) (name : String) (cfg : RetryConfig)
    (s : List Event) : Prop :=
  ∃ k, s = (op k).events ∨
    ∃ att d, s = .prog (retryingProg name att cfg.maxAttempts d) :: (op k).events

theorem segShape_pre {α : Type} (op : Nat → OpRun α) (name : String)
    (cfg : RetryConfig) (a d : Nat) :
    SegShape op name cfg
      ((if 1 < a then [Event.prog (retryingProg name a cfg.maxAttempts d)] else []) ++
        (op a).events) := by
  by_cases ha : 1 < a
  · exact ⟨a, Or.inr ⟨a, d, by rw [if_pos ha]; rfl⟩⟩
  · exact ⟨a, Or.inl (by rw [if_neg ha]; rfl)⟩

/-- Every segment of a controller run is one attempt's events with at most a
leading `retrying` event. -/
theorem aux_segments_shape {α : Type} (cfg : RetryConfig) (op : Nat → OpRun α)
    (name : String) :
    ∀ fuel a e l i segs, (∀ s ∈ segs, SegShape op name cfg s) →
      ∀ s ∈ (executeWithRetryAux cfg op name fuel a e l i segs).segments,
        SegShape op name cfg s := by
  intro fuel
  induction fuel with
  | zero =>
    intro a e l i segs hsegs s hs
    exact hsegs s hs
  | succ n ih =>
    intro a e l i segs hsegs s hs
    simp only [executeWithRetryAux] at hs
    split at hs
    · exact hsegs s hs
    · split at hs
      · rcases List.mem_append.mp hs with h | h
        · exact hsegs s h
        · rcases List.mem_singleton.mp h with rfl
          exact segShape_pre op name cfg a _
      · split at hs
        · rcases List.mem_append.mp hs with h | h
          · exact hsegs s h
          · rcases List.mem_singleton.mp h with rfl
            exact segShape_pre op name cfg a _
        · refine ih _ _ _ _ _ ?_ s hs
          intro t ht
          rcases List.mem_append.mp ht with h | h
          · exact hsegs t h
          · rcases List.mem_singleton.mp h with rfl
            exact segShape_pre op name cfg a _

end RobustDownloadService

end ResumeMaker

namespace ResumeMaker

namespace RobustDownloadService

/-- Counting events across a controller run: retry events never count, failed
attempts contribute nothing, and a successful run contributes exactly the
count of its final (successful) attempt. -/
theorem aux_countP {α : Type} (cfg : RetryConfig) (op : Nat → OpRun α)
    (name : String) (C : Event → Bool)
    (hretry : ∀ att d, C (.prog (retryingProg name att cfg.maxAttempts d)) = false)
    (hfail : ∀ k m, (op k).result = .error m → List.countP C (op k).events = 0) :
    ∀ fuel a e l i segs, a = i + 1 →
      List.countP C (executeWithRetryAux cfg op name fuel a e l i segs).events =
        List.countP C segs.flatten +
          (if isOkB (executeWithRetryAux cfg op name fuel a e l i segs).result then
            List.countP C
              (op (executeWithRetryAux cfg op name fuel a e l i segs).invocations).events
          else 0) := by
  intro fuel
  induction fuel with
  | zero =>
    intro a e l i segs ha
    simp [executeWithRetryAux, Run.events, isOkB]
  | succ n ih =>
    intro a e l i segs ha
    subst ha
    simp only [executeWithRetryAux]
    split
    · simp [Run.events, isOkB]
    · have hpre : ∀ d, List.countP C
          (if 1 < i + 1 then
            [Event.prog (retryingProg name (i + 1) cfg.maxAttempts d)]
          else []) = 0 := by
        intro d
        by_cases hgt : 1 < i + 1
        · rw [if_pos hgt]
          simp [List.countP_cons, hretry]
        · rw [if_neg hgt]
          rfl
      split
      · rename_i v heq
        simp only [Run.events, List.flatten_append, List.flatten_cons,
          List.flatten_nil, List.append_nil, List.countP_append, isOkB]
        rw [hpre]
        simp
      · rename_i m heq
        split
        · simp only [Run.events, List.flatten_append, List.flatten_cons,
            List.flatten_nil, List.append_nil, List.countP_append, isOkB]
          rw [hpre, hfail _ m heq]
          simp
        · rw [ih (i + 1 + 1) _ _ (i + 1) _ rfl]
          simp only [List.flatten_append, List.flatten_cons, List.flatten_nil,
            List.append_nil, List.countP_append]
          rw [hpre, hfail _ m heq]
          ring

end RobustDownloadService

end ResumeMaker

namespace ResumeMaker

namespace RobustDownloadService

/-- On success, the last event of a controller run is the last event of its
final (successful) attempt. -/
theorem aux_last {α : Type} (cfg : RetryConfig) (op : Nat → OpRun α) (name : String)
    (hne : ∀ k v, (op k).result = .ok v → (op k).events ≠ []) :
    ∀ fuel a e l i segs, a = i + 1 →
      isOkB (executeWithRetryAux cfg op name fuel a e l i segs).result = true →
      (executeWithRetryAux cfg op name fuel a e l i segs).events.getLast? =
        (op (executeWithRetryAux cfg op name fuel a e l i segs).invocations).events.getLast? := by
  intro fuel
  induction fuel with
  | zero =>
    intro a e l i segs ha hok
    simp [executeWithRetryAux, isOkB] at hok
  | succ n ih =>
    intro a e l i segs ha hok
    subst ha
    by_cases ht : cfg.timeoutMs < e
    · rw [executeWithRetryAux, if_pos ht] at hok
      simp [isOkB] at hok
    · rcases heq : (op (i + 1)).result with m | v
      · by_cases hnr : nonRecoverable m || (i + 1 = cfg.maxAttempts)
        · rw [executeWithRetryAux, if_neg ht] at hok
          simp only [heq, hnr, if_true] at hok
          simp [isOkB] at hok
        · rw [executeWithRetryAux, if_neg ht] at hok ⊢
          simp only [heq] at hok ⊢
          rw [if_neg (by simpa using hnr)] at hok ⊢
          exact ih (i + 1 + 1) _ _ (i + 1) _ rfl hok
      · rw [executeWithRetryAux, if_neg ht]
        simp only [heq]
        have hev : (op (i + 1)).events ≠ [] := hne _ v heq
        obtain ⟨x, hx⟩ := Option.isSome_iff_exists.mp (List.getLast?_isSome.mpr hev)
        simp [Run.events, List.flatten_append, List.getLast?_append, hx]

end RobustDownloadService

end ResumeMaker

namespace ResumeMaker

/-- Predicate: the event is a progress event with the given stage. -/
def isStageEv (st : Stage) : Event → Bool :=
  fun e => match e with | .prog p => decide (p.stage = st) | _ => false

/-- Number of progress events carrying the given stage. -/
def stageEvCount (st : Stage) (l : List Event) : Nat :=
  l.countP (isStageEv st)

/-- `stageCount` agrees with `stageEvCount`. -/
theorem stageCount_eq_stageEvCount (st : Stage) :
    ∀ l : List Event, stageCount st l = stageEvCount st l
  | [] => rfl
  | e :: t => by
    have ih := stageCount_eq_stageEvCount st t
    simp only [stageCount, stagesOf, stageEvCount, isStageEv] at ih ⊢
    cases e <;> simp [List.countP_cons, isStageEv, ih]

@[simp] theorem savedCount_nil : savedCount [] = 0 := rfl

@[simp] theorem savedCount_cons_prog (p : Prog) (l : List Event) :
    savedCount (.prog p :: l) = savedCount l := by
  simp [savedCount, List.countP_cons]

@[simp] theorem savedCount_cons_tried (m : SaveMethod) (l : List Event) :
    savedCount (.tried m :: l) = savedCount l := by
  simp [savedCount, List.countP_cons]

@[simp] theorem savedCount_cons_saved (m : SaveMethod) (l : List Event) :
    savedCount (.saved m :: l) = savedCount l + 1 := by
  simp [savedCount, List.countP_cons]

@[simp] theorem savedCount_cons_overlay (ms : Nat) (l : List Event) :
    savedCount (.overlayShown ms :: l) = savedCount l := by
  simp [savedCount, List.countP_cons]

@[simp] theorem savedCount_cons_docBuilt (l : List Event) :
    savedCount (.docBuilt :: l) = savedCount l := by
  simp [savedCount, List.countP_cons]

@[simp] theorem savedCount_append (l₁ l₂ : List Event) :
    savedCount (l₁ ++ l₂) = savedCount l₁ + savedCount l₂ := by
  simp [savedCount, List.countP_append]

@[simp] theorem overlayCount_nil : overlayCount [] = 0 := rfl

@[simp] theorem overlayCount_cons_prog (p : Prog) (l : List Event) :
    overlayCount (.prog p :: l) = overlayCount l := by
  simp [overlayCount, List.countP_cons]

@[simp] theorem overlayCount_cons_tried (m : SaveMethod) (l : List Event) :
    overlayCount (.tried m :: l) = overlayCount l := by
  simp [overlayCount, List.countP_cons]

@[simp] theorem overlayCount_cons_saved (m : SaveMethod) (l : List Event) :
    overlayCount (.saved m :: l) = overlayCount l := by
  simp [overlayCount, List.countP_cons]

@[simp] theorem overlayCount_cons_overlay (ms : Nat) (l : List Event) :
    overlayCount (.overlayShown ms :: l) = overlayCount l + 1 := by
  simp [overlayCount, List.countP_cons]

@[simp] theorem overlayCount_cons_docBuilt (l : List Event) :
    overlayCount (.docBuilt :: l) = overlayCount l := by
  simp [overlayCount, List.countP_cons]

@[simp] theorem overlayCount_append (l₁ l₂ : List Event) :
    overlayCount (l₁ ++ l₂) = overlayCount l₁ + overlayCount l₂ := by
  simp [overlayCount, List.countP_append]

@[simp] theorem docBuiltCount_nil : docBuiltCount [] = 0 := rfl

@[simp] theorem docBuiltCount_cons_prog (p : Prog) (l : List Event) :
    docBuiltCount (.prog p :: l) = docBuiltCount l := by
  simp [docBuiltCount, List.countP_cons]

@[simp] theorem docBuiltCount_cons_tried (m : SaveMethod) (l : List Event) :
    docBuiltCount (.tried m :: l) = docBuiltCount l := by
  simp [docBuiltCount, List.countP_cons]

@[simp] theorem docBuiltCount_cons_saved (m : SaveMethod) (l : List Event) :
    docBuiltCount (.saved m :: l) = docBuiltCount l := by
  simp [docBuiltCount, List.countP_cons]

@[simp] theorem docBuiltCount_cons_overlay (ms : Nat) (l : List Event) :
    docBuiltCount (.overlayShown ms :: l) = docBuiltCount l := by
  simp [docBuiltCount, List.countP_cons]

@[simp] theorem docBuiltCount_cons_docBuilt (l : List Event) :
    docBuiltCount (.docBuilt :: l) = docBuiltCount l + 1 := by
  simp [docBuiltCount, List.countP_cons]

@[simp] theorem docBuiltCount_append (l₁ l₂ : List Event) :
    docBuiltCount (l₁ ++ l₂) = docBuiltCount l₁ + docBuiltCount l₂ := by
  simp [docBuiltCount, List.countP_append]

@[simp] theorem stageEvCount_nil (st : Stage) : stageEvCount st [] = 0 := rfl

@[simp] theorem stageEvCount_cons_prog (st : Stage) (p : Prog) (l : List Event) :
    stageEvCount st (.prog p :: l)
      = stageEvCount st l + (if p.stage = st then 1 else 0) := by
  simp [stageEvCount, isStageEv, List.countP_cons]

@[simp] theorem stageEvCount_cons_tried (st : Stage) (m : SaveMethod) (l : List Event) :
    stageEvCount st (.tried m :: l) = stageEvCount st l := by
  simp [stageEvCount, isStageEv, List.countP_cons]

@[simp] theorem stageEvCount_cons_saved (st : Stage) (m : SaveMethod) (l : List Event) :
    stageEvCount st (.saved m :: l) = stageEvCount st l := by
  simp [stageEvCount, isStageEv, List.countP_cons]

@[simp] theorem stageEvCount_cons_overlay (st : Stage) (ms : Nat) (l : List Event) :
    stageEvCount st (.overlayShown ms :: l) = stageEvCount st l := by
  simp [stageEvCount, isStageEv, List.countP_cons]

@[simp] theorem stageEvCount_cons_docBuilt (st : Stage) (l : List Event) :
    stageEvCount st (.docBuilt :: l) = stageEvCount st l := by
  simp [stageEvCount, isStageEv, List.countP_cons]

@[simp] theorem stageEvCount_append (st : Stage) (l₁ l₂ : List Event) :
    stageEvCount st (l₁ ++ l₂) = stageEvCount st l₁ + stageEvCount st l₂ := by
  simp [stageEvCount, List.countP_append]

/-- Every robust save chain outcome triggers exactly one save or shows
exactly one overlay. -/
theorem robust_save_exclusive (senv : RobustDownloadService.SaveEnv) :
    savedCount (RobustDownloadService.createDownloadLink senv) +
      overlayCount (RobustDownloadService.createDownloadLink senv) = 1 := by
  rcases senv with ⟨a, f, n⟩
  cases a <;> cases f <;> by_cases hn : n < 10485760 <;>
    simp [RobustDownloadService.createDownloadLink, hn]

/-- The robust save chain emits no progress events. -/
@[simp] theorem robust_save_no_prog (senv : RobustDownloadService.SaveEnv)
    (st : Stage) :
    stageEvCount st (RobustDownloadService.createDownloadLink senv) = 0 := by
  rcases senv with ⟨a, f, n⟩
  cases a <;> cases f <;> by_cases hn : n < 10485760 <;>
    simp [RobustDownloadService.createDownloadLink, hn]

/-- The robust save chain emits no docBuilt events. -/
@[simp] theorem robust_save_no_docBuilt (senv : RobustDownloadService.SaveEnv) :
    docBuiltCount (RobustDownloadService.createDownloadLink senv) = 0 := by
  rcases senv with ⟨a, f, n⟩
  cases a <;> cases f <;> by_cases hn : n < 10485760 <;>
    simp [RobustDownloadService.createDownloadLink, hn]

end ResumeMaker

namespace ResumeMaker

/-- The last element of a cons-and-append list ending in a singleton. -/
@[simp] theorem getLast?_cons_append_singleton {α : Type} (a x : α) (l : List α) :
    (a :: (l ++ [x])).getLast? = some x := by
  rw [← List.cons_append, List.getLast?_concat]

namespace RobustDownloadService

/-- The terminal `complete` progress event of the robust PNG attempt body. -/
def pngCompleteProg : Prog :=
  { stage := .complete, progress := 100, message := "PNG downloaded successfully!" }

/-- The terminal `complete` progress event of the robust Word attempt body. -/
def wordCompleteProg : Prog :=
  { stage := .complete, progress := 100, message := "Word document downloaded successfully!" }

/-- Counting facts about a failed robust PNG attempt: no save, no overlay,
no `complete` and no `error` progress event. -/
theorem pngOpRun_fail_counts (e : PngEnv) (m : String)
    (h : (pngOpRun e).result = .error m) :
    savedCount (pngOpRun e).events = 0 ∧
    overlayCount (pngOpRun e).events = 0 ∧
    stageEvCount .complete (pngOpRun e).events = 0 ∧
    stageEvCount .error (pngOpRun e).events = 0 := by
  rcases e with ⟨d, c1, c2, c3, b, sv⟩
  cases d
  · simp [pngOpRun]
  · rcases c1 with m1 | v1 <;> rcases c2 with m2 | v2 <;> rcases c3 with m3 | v3 <;>
      cases b <;>
      simp_all [pngOpRun, captureElementAsCanvas, captureProg]

/-- Counting and shape facts about a successful robust PNG attempt: exactly
one `complete` progress event (the last event), exactly one save or overlay,
and no `error` progress event. -/
theorem pngOpRun_ok_counts (e : PngEnv) (v : Unit)
    (h : (pngOpRun e).result = .ok v) :
    stageEvCount .complete (pngOpRun e).events = 1 ∧
    savedCount (pngOpRun e).events + overlayCount (pngOpRun e).events = 1 ∧
    stageEvCount .error (pngOpRun e).events = 0 ∧
    (pngOpRun e).events ≠ [] ∧
    (pngOpRun e).events.getLast? = some (.prog pngCompleteProg) := by
  have hex := robust_save_exclusive e.save
  rcases e with ⟨d, c1, c2, c3, b, sv⟩
  cases d
  · simp [pngOpRun] at h
  · rcases c1 with m1 | v1 <;> rcases c2 with m2 | v2 <;> rcases c3 with m3 | v3 <;>
      cases b <;>
      simp_all [pngOpRun, captureElementAsCanvas, captureProg, pngCompleteProg,
        List.getLast?_cons_cons]

/-- Counting facts about a failed robust Word attempt. -/
theorem wordOpRun_fail_counts (rd : ResumeData) (sv : SaveEnv) (m : String)
    (h : (wordOpRun rd sv).result = .error m) :
    savedCount (wordOpRun rd sv).events = 0 ∧
    overlayCount (wordOpRun rd sv).events = 0 ∧
    docBuiltCount (wordOpRun rd sv).events = 0 ∧
    stageEvCount .complete (wordOpRun rd sv).events = 0 ∧
    stageEvCount .error (wordOpRun rd sv).events = 0 := by
  by_cases hf : rd.personalInfo.fullName = ""
  · simp [wordOpRun, hf]
  · simp [wordOpRun, hf] at h

/-- Counting and shape facts about a successful robust Word attempt. -/
theorem wordOpRun_ok_counts (rd : ResumeData) (sv : SaveEnv) (v : Unit)
    (h : (wordOpRun rd sv).result = .ok v) :
    stageEvCount .complete (wordOpRun rd sv).events = 1 ∧
    savedCount (wordOpRun rd sv).events + overlayCount (wordOpRun rd sv).events = 1 ∧
    stageEvCount .error (wordOpRun rd sv).events = 0 ∧
    docBuiltCount (wordOpRun rd sv).events = 1 ∧
    (wordOpRun rd sv).events ≠ [] ∧
    (wordOpRun rd sv).events.getLast? = some (.prog wordCompleteProg) := by
  have hex := robust_save_exclusive sv
  by_cases hf : rd.personalInfo.fullName = ""
  · simp [wordOpRun, hf] at h
  · simp_all [wordOpRun, hf, wordCompleteProg, List.getLast?_cons_cons]

end RobustDownloadService

end ResumeMaker

namespace ResumeMaker

set_option maxRecDepth 4000 in
/-- C10: when `personalInfo.fullName` is empty, the Word export of the basic
`DownloadService` rejects with `Resume data is incomplete`, and the full-retry
`RobustDownloadService` (part_005) rejects with an error whose message
contains `Resume data is incomplete`; in both services no Word `Document` is
ever constructed and no file-save is ever triggered. -/
theorem c10_word_incomplete (rd : ResumeData) (senv : DownloadService.SaveEnv)
    (rsenv : Nat → RobustDownloadService.SaveEnv)
    (h : rd.personalInfo.fullName = "") :
    (DownloadService.downloadAsWord rd senv).2 = .error "Resume data is incomplete" ∧
    savedCount (DownloadService.downloadAsWord rd senv).1 = 0 ∧
    docBuiltCount (DownloadService.downloadAsWord rd senv).1 = 0 ∧
    (∃ m, (RobustDownloadService.downloadAsWord rd rsenv).result = .error m ∧
      strContains m "Resume data is incomplete" = true) ∧
    savedCount (RobustDownloadService.downloadAsWord rd rsenv).events = 0 ∧
    docBuiltCount (RobustDownloadService.downloadAsWord rd rsenv).events = 0 := by
  have hnf1 : strContains "Resume data is incomplete - missing full name" "not find"
      = false := by decide
  have hnf2 : strContains "Resume data is incomplete - missing full name"
      "detection strategies" = false := by decide
  refine ⟨?_, ?_, ?_, ?_, ?_, ?_⟩
  · simp [DownloadService.downloadAsWord, DownloadService.downloadAsWordBody, h]
  · simp [DownloadService.downloadAsWord, DownloadService.downloadAsWordBody, h]
  · simp [DownloadService.downloadAsWord, DownloadService.downloadAsWordBody, h]
  · simp [RobustDownloadService.downloadAsWord,
      RobustDownloadService.executeWithRetry, RobustDownloadService.executeWithRetryAux,
      RobustDownloadService.wordOpRun, RobustDownloadService.nonRecoverable,
      RobustDownloadService.calculateRetryDelay, robustRetryConfig, h, hnf1, hnf2]
    decide
  · simp [RobustDownloadService.downloadAsWord,
      RobustDownloadService.executeWithRetry, RobustDownloadService.executeWithRetryAux,
      RobustDownloadService.wordOpRun, RobustDownloadService.nonRecoverable,
      RobustDownloadService.calculateRetryDelay, robustRetryConfig, h, hnf1, hnf2,
      Run.events]
  · simp [RobustDownloadService.downloadAsWord,
      RobustDownloadService.executeWithRetry, RobustDownloadService.executeWithRetryAux,
      RobustDownloadService.wordOpRun, RobustDownloadService.nonRecoverable,
      RobustDownloadService.calculateRetryDelay, robustRetryConfig, h, hnf1, hnf2,
      Run.events]

end ResumeMaker

namespace ResumeMaker

/-- A `ResumeData` whose `fullName` is empty. -/
def rdEmptyName : ResumeData :=
  { personalInfo := { fullName := "", email := "a@b.c", phone := "", linkedIn := ""
                      github := "", tagline := "", objective := "" }
    skills := [], experience := [], education := [], certifications := [] }

/-- Witness for C10 at concrete resume data and environments. -/
theorem c10_word_incomplete_witness :
    (DownloadService.downloadAsWord rdEmptyName ⟨true, true⟩).2
        = .error "Resume data is incomplete" ∧
    savedCount (DownloadService.downloadAsWord rdEmptyName ⟨true, true⟩).1 = 0 ∧
    docBuiltCount (DownloadService.downloadAsWord rdEmptyName ⟨true, true⟩).1 = 0 ∧
    (∃ m, (RobustDownloadService.downloadAsWord rdEmptyName
        (fun _ => ⟨true, true, 0⟩)).result = .error m ∧
      strContains m "Resume data is incomplete" = true) ∧
    savedCount (RobustDownloadService.downloadAsWord rdEmptyName
        (fun _ => ⟨true, true, 0⟩)).events = 0 ∧
    docBuiltCount (RobustDownloadService.downloadAsWord rdEmptyName
        (fun _ => ⟨true, true, 0⟩)).events = 0 :=
  c10_word_incomplete rdEmptyName ⟨true, true⟩ (fun _ => ⟨true, true, 0⟩) rfl

end ResumeMaker

namespace ResumeMaker

/-- Joint count of saves and overlays. -/
def savedOrOverlayCount (l : List Event) : Nat :=
  l.countP fun e =>
    match e with | .saved _ => true | .overlayShown _ => true | _ => false

/-- `savedOrOverlayCount` splits into its two parts. -/
theorem savedOrOverlayCount_eq :
    ∀ l : List Event, savedOrOverlayCount l = savedCount l + overlayCount l
  | [] => rfl
  | e :: t => by
    have ih := savedOrOverlayCount_eq t
    cases e <;>
      simp only [savedOrOverlayCount, savedCount, overlayCount, List.countP_cons] at ih ⊢ <;>
      simp <;> omega

namespace RobustDownloadService

/-- A successful controller run ends with a successful invocation: the
operation at index `invocations` returned `ok`. -/
theorem aux_ok {α : Type} (cfg : RetryConfig) (op : Nat → OpRun α) (name : String) :
    ∀ fuel a e l i segs, a = i + 1 →
      isOkB (executeWithRetryAux cfg op name fuel a e l i segs).result = true →
      ∃ v, (op (executeWithRetryAux cfg op name fuel a e l i segs).invocations).result
        = .ok v := by
  intro fuel
  induction fuel with
  | zero =>
    intro a e l i segs ha hok
    simp [executeWithRetryAux, isOkB] at hok
  | succ n ih =>
    intro a e l i segs ha hok
    subst ha
    by_cases ht : cfg.timeoutMs < e
    · rw [executeWithRetryAux, if_pos ht] at hok
      simp [isOkB] at hok
    · rcases heq : (op (i + 1)).result with m | v
      · by_cases hnr : nonRecoverable m || (i + 1 = cfg.maxAttempts)
        · rw [executeWithRetryAux, if_neg ht] at hok
          simp only [heq, hnr, if_true] at hok
          simp [isOkB] at hok
        · rw [executeWithRetryAux, if_neg ht] at hok ⊢
          simp only [heq] at hok ⊢
          rw [if_neg (by simpa using hnr)] at hok ⊢
          exact ih (i + 1 + 1) _ _ (i + 1) _ rfl hok
      · rw [executeWithRetryAux, if_neg ht]
        simp only [heq]
        exact ⟨v, rfl⟩

/-- Stage-count of a whole controller run, via `aux_countP`. -/
theorem run_stageEvCount {α : Type} (cfg : RetryConfig) (op : Nat → OpRun α)
    (name : String) (st : Stage) (hst : st ≠ .retrying)
    (hfail : ∀ k m, (op k).result = .error m → stageEvCount st (op k).events = 0) :
    stageEvCount st (executeWithRetry cfg op name).events =
      if isOkB (executeWithRetry cfg op name).result then
        stageEvCount st (op (executeWithRetry cfg op name).invocations).events
      else 0 := by
  have h := aux_countP cfg op name (isStageEv st)
    (fun att d => by
      simp only [isStageEv, retryingProg]
      simp only [decide_eq_false_iff_not]
      exact fun hh => hst hh.symm)
    (fun k m hm => hfail k m hm)
    cfg.maxAttempts 1 0 none 0 [] rfl
  simpa [stageEvCount, executeWithRetry] using h

/-- Saved-or-overlay count of a whole controller run, via `aux_countP`. -/
theorem run_savedOrOverlayCount {α : Type} (cfg : RetryConfig) (op : Nat → OpRun α)
    (name : String)
    (hfail : ∀ k m, (op k).result = .error m → savedOrOverlayCount (op k).events = 0) :
    savedOrOverlayCount (executeWithRetry cfg op name).events =
      if isOkB (executeWithRetry cfg op name).result then
        savedOrOverlayCount (op (executeWithRetry cfg op name).invocations).events
      else 0 := by
  have h := aux_countP cfg op name
    (fun e => match e with | .saved _ => true | .overlayShown _ => true | _ => false)
    (fun att d => rfl)
    (fun k m hm => hfail k m hm)
    cfg.maxAttempts 1 0 none 0 [] rfl
  simpa [savedOrOverlayCount, executeWithRetry] using h

/-- docBuilt count of a whole controller run, via `aux_countP`. -/
theorem run_docBuiltCount {α : Type} (cfg : RetryConfig) (op : Nat → OpRun α)
    (name : String)
    (hfail : ∀ k m, (op k).result = .error m → docBuiltCount (op k).events = 0) :
    docBuiltCount (executeWithRetry cfg op name).events =
      if isOkB (executeWithRetry cfg op name).result then
        docBuiltCount (op (executeWithRetry cfg op name).invocations).events
      else 0 := by
  have h := aux_countP cfg op name
    (fun e => match e with | .docBuilt => true | _ => false)
    (fun att d => rfl)
    (fun k m hm => hfail k m hm)
    cfg.maxAttempts 1 0 none 0 [] rfl
  simpa [docBuiltCount, executeWithRetry] using h

/-- Last event of a whole controller run on success, via `aux_last`. -/
theorem run_last {α : Type} (cfg : RetryConfig) (op : Nat → OpRun α) (name : String)
    (hne : ∀ k v, (op k).result = .ok v → (op k).events ≠ [])
    (hok : isOkB (executeWithRetry cfg op name).result = true) :
    (executeWithRetry cfg op name).events.getLast? =
      (op (executeWithRetry cfg op name).invocations).events.getLast? :=
  aux_last cfg op name hne cfg.maxAttempts 1 0 none 0 [] rfl hok

/-- `run_ok` at the top-level controller entry point. -/
theorem run_ok {α : Type} (cfg : RetryConfig) (op : Nat → OpRun α) (name : String)
    (hok : isOkB (executeWithRetry cfg op name).result = true) :
    ∃ v, (op (executeWithRetry cfg op name).invocations).result = .ok v :=
  aux_ok cfg op name cfg.maxAttempts 1 0 none 0 [] rfl hok

/-- Terminal-event behaviour of the full-retry robust PNG export. -/
theorem robust_png_terminal (penv : Nat → PngEnv) :
    (isOkB (downloadAsPNG penv).result = true →
      stageEvCount .complete (downloadAsPNG penv).events = 1 ∧
      savedCount (downloadAsPNG penv).events + overlayCount (downloadAsPNG penv).events = 1 ∧
      stageEvCount .error (downloadAsPNG penv).events = 0 ∧
      (downloadAsPNG penv).events.getLast? = some (.prog pngCompleteProg)) ∧
    (isOkB (downloadAsPNG penv).result = false →
      stageEvCount .error (downloadAsPNG penv).events = 0 ∧
      stageEvCount .complete (downloadAsPNG penv).events = 0 ∧
      savedCount (downloadAsPNG penv).events + overlayCount (downloadAsPNG penv).events = 0) := by
  simp only [downloadAsPNG]
  have hcomp := run_stageEvCount robustRetryConfig (fun k => pngOpRun (penv k))
    "PNG generation" .complete (by simp)
    (fun k m hm => (pngOpRun_fail_counts (penv k) m hm).2.2.1)
  have herr := run_stageEvCount robustRetryConfig (fun k => pngOpRun (penv k))
    "PNG generation" .error (by simp)
    (fun k m hm => (pngOpRun_fail_counts (penv k) m hm).2.2.2)
  have hso := run_savedOrOverlayCount robustRetryConfig (fun k => pngOpRun (penv k))
    "PNG generation"
    (fun k m hm => by
      have h := pngOpRun_fail_counts (penv k) m hm
      simp [savedOrOverlayCount_eq, h.1, h.2.1])
  simp only [savedOrOverlayCount_eq] at hso
  constructor
  · intro hok
    obtain ⟨v, hres⟩ := run_ok robustRetryConfig (fun k => pngOpRun (penv k))
      "PNG generation" hok
    have hb := pngOpRun_ok_counts _ v hres
    have hlast := run_last robustRetryConfig (fun k => pngOpRun (penv k))
      "PNG generation" (fun k w hw => (pngOpRun_ok_counts (penv k) w hw).2.2.2.1) hok
    refine ⟨?_, ?_, ?_, ?_⟩
    · rw [hcomp, if_pos hok]
      exact hb.1
    · rw [hso, if_pos hok]
      exact hb.2.1
    · rw [herr, if_pos hok]
      exact hb.2.2.1
    · rw [hlast]
      exact hb.2.2.2.2
  · intro hfail
    have hneg : ¬ isOkB (executeWithRetry robustRetryConfig
        (fun k => pngOpRun (penv k)) "PNG generation").result = true := by
      simp [hfail]
    refine ⟨?_, ?_, ?_⟩
    · rw [herr, if_neg hneg]
    · rw [hcomp, if_neg hneg]
    · rw [hso, if_neg hneg]

/-- Terminal-event behaviour of the full-retry robust Word export. -/
theorem robust_word_terminal (rd : ResumeData) (rsenv : Nat → SaveEnv) :
    (isOkB (downloadAsWord rd rsenv).result = true →
      stageEvCount .complete (downloadAsWord rd rsenv).events = 1 ∧
      savedCount (downloadAsWord rd rsenv).events +
        overlayCount (downloadAsWord rd rsenv).events = 1 ∧
      stageEvCount .error (downloadAsWord rd rsenv).events = 0 ∧
      (downloadAsWord rd rsenv).events.getLast? = some (.prog wordCompleteProg)) ∧
    (isOkB (downloadAsWord rd rsenv).result = false →
      stageEvCount .error (downloadAsWord rd rsenv).events = 0 ∧
      stageEvCount .complete (downloadAsWord rd rsenv).events = 0 ∧
      savedCount (downloadAsWord rd rsenv).events +
        overlayCount (downloadAsWord rd rsenv).events = 0) := by
  simp only [downloadAsWord]
  have hcomp := run_stageEvCount robustRetryConfig (fun k => wordOpRun rd (rsenv k))
    "Word document generation" .complete (by simp)
    (fun k m hm => (wordOpRun_fail_counts rd (rsenv k) m hm).2.2.2.1)
  have herr := run_stageEvCount robustRetryConfig (fun k => wordOpRun rd (rsenv k))
    "Word document generation" .error (by simp)
    (fun k m hm => (wordOpRun_fail_counts rd (rsenv k) m hm).2.2.2.2)
  have hso := run_savedOrOverlayCount robustRetryConfig (fun k => wordOpRun rd (rsenv k))
    "Word document generation"
    (fun k m hm => by
      have h := wordOpRun_fail_counts rd (rsenv k) m hm
      simp [savedOrOverlayCount_eq, h.1, h.2.1])
  simp only [savedOrOverlayCount_eq] at hso
  constructor
  · intro hok
    obtain ⟨v, hres⟩ := run_ok robustRetryConfig (fun k => wordOpRun rd (rsenv k))
      "Word document generation" hok
    have hb := wordOpRun_ok_counts rd _ v hres
    have hlast := run_last robustRetryConfig (fun k => wordOpRun rd (rsenv k))
      "Word document generation"
      (fun k w hw => (wordOpRun_ok_counts rd (rsenv k) w hw).2.2.2.2.1) hok
    refine ⟨?_, ?_, ?_, ?_⟩
    · rw [hcomp, if_pos hok]
      exact hb.1
    · rw [hso, if_pos hok]
      exact hb.2.1
    · rw [herr, if_pos hok]
      exact hb.2.2.1
    · rw [hlast]
      exact hb.2.2.2.2.2
  · intro hfail
    have hneg : ¬ isOkB (executeWithRetry robustRetryConfig
        (fun k => wordOpRun rd (rsenv k)) "Word document generation").result = true := by
      simp [hfail]
    refine ⟨?_, ?_, ?_⟩
    · rw [herr, if_neg hneg]
    · rw [hcomp, if_neg hneg]
    · rw [hso, if_neg hneg]

end RobustDownloadService

end ResumeMaker

namespace ResumeMaker

namespace DownloadService

/-- Terminal progress events of the basic service. -/
def pdfCompleteProg : Prog :=
  { stage := .complete, progress := 100, message := "PDF downloaded successfully!" }

def wordCompleteProg : Prog :=
  { stage := .complete, progress := 100, message := "Word document downloaded successfully!" }

def pngCompleteProg : Prog :=
  { stage := .complete, progress := 100, message := "Image downloaded successfully!" }

def pdfErrorProg (m : String) : Prog :=
  { stage := .error, progress := 0, message := "Failed to generate PDF: " ++ m }

def wordErrorProg (m : String) : Prog :=
  { stage := .error, progress := 0, message := "Failed to generate Word document: " ++ m }

def pngErrorProg (m : String) : Prog :=
  { stage := .error, progress := 0, message := "Failed to generate image: " ++ m }

/-- Terminal-event behaviour of the basic PDF export: on success exactly one
save, exactly one terminal `complete`; on failure exactly one terminal
`error` event, the exception is rethrown, and no save was triggered. -/
theorem basic_pdf_terminal (env : CaptureEnv) (senv : SaveEnv) (elementId : String) :
    (isOkB (downloadAsPDF env senv elementId).2 = true →
      savedCount (downloadAsPDF env senv elementId).1 = 1 ∧
      stageEvCount .complete (downloadAsPDF env senv elementId).1 = 1 ∧
      stageEvCount .error (downloadAsPDF env senv elementId).1 = 0 ∧
      (downloadAsPDF env senv elementId).1.getLast? = some (.prog pdfCompleteProg)) ∧
    (∀ m, (downloadAsPDF env senv elementId).2 = .error m →
      stageEvCount .error (downloadAsPDF env senv elementId).1 = 1 ∧
      stageEvCount .complete (downloadAsPDF env senv elementId).1 = 0 ∧
      savedCount (downloadAsPDF env senv elementId).1 = 0 ∧
      (downloadAsPDF env senv elementId).1.getLast? = some (.prog (pdfErrorProg m))) := by
  rcases env with ⟨found, w, hh, cv⟩
  rcases senv with ⟨fs, an⟩
  rcases cv with m | ⟨cw, ch⟩ <;> cases found <;> cases fs <;> cases an <;>
    by_cases h1 : w = 0 ∨ hh = 0
  all_goals try by_cases h2 : cw = 0 ∨ ch = 0
  all_goals
    constructor
  all_goals intro
  all_goals intros
  all_goals
    simp_all [downloadAsPDF, downloadAsPDFBody, createDownloadLink, isOkB,
      pdfCompleteProg, pdfErrorProg, List.getLast?_cons_cons]

end DownloadService

end ResumeMaker

namespace ResumeMaker

namespace DownloadService

/-- Terminal-event behaviour of the basic Word export. -/
theorem basic_word_terminal (rd : ResumeData) (senv : SaveEnv) :
    (isOkB (downloadAsWord rd senv).2 = true →
      savedCount (downloadAsWord rd senv).1 = 1 ∧
      stageEvCount .complete (downloadAsWord rd senv).1 = 1 ∧
      stageEvCount .error (downloadAsWord rd senv).1 = 0 ∧
      (downloadAsWord rd senv).1.getLast? = some (.prog wordCompleteProg)) ∧
    (∀ m, (downloadAsWord rd senv).2 = .error m →
      stageEvCount .error (downloadAsWord rd senv).1 = 1 ∧
      stageEvCount .complete (downloadAsWord rd senv).1 = 0 ∧
      savedCount (downloadAsWord rd senv).1 = 0 ∧
      (downloadAsWord rd senv).1.getLast? = some (.prog (wordErrorProg m))) := by
  rcases senv with ⟨fs, an⟩
  cases fs <;> cases an <;> by_cases hf : rd.personalInfo.fullName = ""
  all_goals
    constructor
  all_goals intro
  all_goals intros
  all_goals
    simp_all [downloadAsWord, downloadAsWordBody, createDownloadLink, isOkB,
      wordCompleteProg, wordErrorProg, List.getLast?_cons_cons]

/-- Terminal-event behaviour of the basic PNG export: on success exactly one
save and one terminal `complete` event; a failure of the awaited capture
phase is caught and yields exactly one terminal `error` event before the
rethrow; but a rejection of the unawaited `toBlob` promise (null blob or
save-chain failure) bypasses the `catch` and propagates with no `error`
progress event at all. -/
theorem basic_png_terminal (env : CaptureEnv) (blobOk : Bool) (senv : SaveEnv)
    (elementId : String) :
    (isOkB (downloadAsPNG env blobOk senv elementId).2 = true →
      savedCount (downloadAsPNG env blobOk senv elementId).1 = 1 ∧
      stageEvCount .complete (downloadAsPNG env blobOk senv elementId).1 = 1 ∧
      stageEvCount .error (downloadAsPNG env blobOk senv elementId).1 = 0 ∧
      (downloadAsPNG env blobOk senv elementId).1.getLast?
        = some (.prog pngCompleteProg)) ∧
    (∀ m, (downloadAsPNGBody env elementId).2 = .error m →
      (downloadAsPNG env blobOk senv elementId).2 = .error m ∧
      stageEvCount .error (downloadAsPNG env blobOk senv elementId).1 = 1 ∧
      stageEvCount .complete (downloadAsPNG env blobOk senv elementId).1 = 0 ∧
      savedCount (downloadAsPNG env blobOk senv elementId).1 = 0 ∧
      (downloadAsPNG env blobOk senv elementId).1.getLast?
        = some (.prog (pngErrorProg m))) ∧
    (isOkB (downloadAsPNGBody env elementId).2 = true →
      ∀ m, (downloadAsPNG env blobOk senv elementId).2 = .error m →
      stageEvCount .error (downloadAsPNG env blobOk senv elementId).1 = 0 ∧
      stageEvCount .complete (downloadAsPNG env blobOk senv elementId).1 = 0 ∧
      savedCount (downloadAsPNG env blobOk senv elementId).1 = 0) := by
  rcases env with ⟨found, w, hh, cv⟩
  rcases senv with ⟨fs, an⟩
  rcases cv with m | ⟨cw, ch⟩ <;> cases found <;> cases blobOk <;> cases fs <;>
    cases an <;> by_cases h1 : w = 0 ∨ hh = 0
  all_goals try by_cases h2 : cw = 0 ∨ ch = 0
  all_goals
    refine ⟨?_, ?_, ?_⟩
  all_goals intro
  all_goals intros
  all_goals
    simp_all [downloadAsPNG, downloadAsPNGBody, pngBlobPromise,
      createDownloadLink, isOkB, pngCompleteProg, pngErrorProg,
      List.getLast?_cons_cons]

end DownloadService

end ResumeMaker

namespace ResumeMaker

/-- A robust PNG environment whose element detection fails on every attempt. -/
def pngDetectFailEnv : Nat → RobustDownloadService.PngEnv :=
  fun _ => { detectOk := false, cap1 := .ok (), cap2 := .ok (), cap3 := .ok ()
             blobOk := true, save := ⟨true, true, 0⟩ }

/-- C6 counterexample: the full-retry robust PNG export, failing on element
detection, rejects — yet its event trace contains no `error` stage progress
event at all, contradicting the claim that every export operation emits a
terminal `error` progress event on unrecoverable failure. -/
theorem c6_counterexample :
    (∃ m, (RobustDownloadService.downloadAsPNG pngDetectFailEnv).result = .error m) ∧
    stageEvCount .error (RobustDownloadService.downloadAsPNG pngDetectFailEnv).events
      = 0 := by
  constructor
  · exact ⟨_, rfl⟩
  · decide

/-- C6 (amended): for the basic `DownloadService` PDF and Word exports, a
successful run triggers exactly one file save and ends with exactly one
terminal `complete` progress event, and a failed run ends with exactly one
terminal `error` progress event, triggers no save, and rethrows the
exception. The basic PNG export behaves the same on success and for failures
of its awaited capture phase, but because it returns the `toBlob` promise
without `await`, a blob-creation or save-chain failure bypasses the `catch`:
the rejection propagates with no `error` progress event at all. The
full-retry robust exports (PNG, Word of part_005) emit exactly one terminal
`complete` and trigger exactly one save or show exactly one manual-recovery
overlay on success, but on failure they reject without emitting any `error`
progress event. -/
theorem c6_terminal_events (env : DownloadService.CaptureEnv)
    (senv : DownloadService.SaveEnv) (elementId : String) (rd : ResumeData)
    (senv2 : DownloadService.SaveEnv) (env2 : DownloadService.CaptureEnv)
    (blobOk : Bool) (senv3 : DownloadService.SaveEnv) (elementId2 : String)
    (penv : Nat → RobustDownloadService.PngEnv) (rd2 : ResumeData)
    (rsenv : Nat → RobustDownloadService.SaveEnv) :
    ((isOkB (DownloadService.downloadAsPDF env senv elementId).2 = true →
      savedCount (DownloadService.downloadAsPDF env senv elementId).1 = 1 ∧
      stageEvCount .complete (DownloadService.downloadAsPDF env senv elementId).1 = 1 ∧
      stageEvCount .error (DownloadService.downloadAsPDF env senv elementId).1 = 0 ∧
      (DownloadService.downloadAsPDF env senv elementId).1.getLast?
        = some (.prog DownloadService.pdfCompleteProg)) ∧
     (∀ m, (DownloadService.downloadAsPDF env senv elementId).2 = .error m →
      stageEvCount .error (DownloadService.downloadAsPDF env senv elementId).1 = 1 ∧
      stageEvCount .complete (DownloadService.downloadAsPDF env senv elementId).1 = 0 ∧
      savedCount (DownloadService.downloadAsPDF env senv elementId).1 = 0 ∧
      (DownloadService.downloadAsPDF env senv elementId).1.getLast?
        = some (.prog (DownloadService.pdfErrorProg m)))) ∧
    ((isOkB (DownloadService.downloadAsWord rd senv2).2 = true →
      savedCount (DownloadService.downloadAsWord rd senv2).1 = 1 ∧
      stageEvCount .complete (DownloadService.downloadAsWord rd senv2).1 = 1 ∧
      stageEvCount .error (DownloadService.downloadAsWord rd senv2).1 = 0 ∧
      (DownloadService.downloadAsWord rd senv2).1.getLast?
        = some (.prog DownloadService.wordCompleteProg)) ∧
     (∀ m, (DownloadService.downloadAsWord rd senv2).2 = .error m →
      stageEvCount .error (DownloadService.downloadAsWord rd senv2).1 = 1 ∧
      stageEvCount .complete (DownloadService.downloadAsWord rd senv2).1 = 0 ∧
      savedCount (DownloadService.downloadAsWord rd senv2).1 = 0 ∧
      (DownloadService.downloadAsWord rd senv2).1.getLast?
        = some (.prog (DownloadService.wordErrorProg m)))) ∧
    ((isOkB (DownloadService.downloadAsPNG env2 blobOk senv3 elementId2).2 = true →
      savedCount (DownloadService.downloadAsPNG env2 blobOk senv3 elementId2).1 = 1 ∧
      stageEvCount .complete
        (DownloadService.downloadAsPNG env2 blobOk senv3 elementId2).1 = 1 ∧
      stageEvCount .error
        (DownloadService.downloadAsPNG env2 blobOk senv3 elementId2).1 = 0 ∧
      (DownloadService.downloadAsPNG env2 blobOk senv3 elementId2).1.getLast?
        = some (.prog DownloadService.pngCompleteProg)) ∧
     (∀ m, (DownloadService.downloadAsPNGBody env2 elementId2).2 = .error m →
      (DownloadService.downloadAsPNG env2 blobOk senv3 elementId2).2 = .error m ∧
      stageEvCount .error
        (DownloadService.downloadAsPNG env2 blobOk senv3 elementId2).1 = 1 ∧
      stageEvCount .complete
        (DownloadService.downloadAsPNG env2 blobOk senv3 elementId2).1 = 0 ∧
      savedCount (DownloadService.downloadAsPNG env2 blobOk senv3 elementId2).1 = 0 ∧
      (DownloadService.downloadAsPNG env2 blobOk senv3 elementId2).1.getLast?
        = some (.prog (DownloadService.pngErrorProg m))) ∧
     (isOkB (DownloadService.downloadAsPNGBody env2 elementId2).2 = true →
      ∀ m, (DownloadService.downloadAsPNG env2 blobOk senv3 elementId2).2 = .error m →
      stageEvCount .error
        (DownloadService.downloadAsPNG env2 blobOk senv3 elementId2).1 = 0 ∧
      stageEvCount .complete
        (DownloadService.downloadAsPNG env2 blobOk senv3 elementId2).1 = 0 ∧
      savedCount (DownloadService.downloadAsPNG env2 blobOk senv3 elementId2).1 = 0)) ∧
    ((isOkB (RobustDownloadService.downloadAsPNG penv).result = true →
      stageEvCount .complete (RobustDownloadService.downloadAsPNG penv).events = 1 ∧
      savedCount (RobustDownloadService.downloadAsPNG penv).events +
        overlayCount (RobustDownloadService.downloadAsPNG penv).events = 1 ∧
      stageEvCount .error (RobustDownloadService.downloadAsPNG penv).events = 0 ∧
      (RobustDownloadService.downloadAsPNG penv).events.getLast?
        = some (.prog RobustDownloadService.pngCompleteProg)) ∧
     (isOkB (RobustDownloadService.downloadAsPNG penv).result = false →
      stageEvCount .error (RobustDownloadService.downloadAsPNG penv).events = 0 ∧
      stageEvCount .complete (RobustDownloadService.downloadAsPNG penv).events = 0 ∧
      savedCount (RobustDownloadService.downloadAsPNG penv).events +
        overlayCount (RobustDownloadService.downloadAsPNG penv).events = 0)) ∧
    ((isOkB (RobustDownloadService.downloadAsWord rd2 rsenv).result = true →
      stageEvCount .complete (RobustDownloadService.downloadAsWord rd2 rsenv).events = 1 ∧
      savedCount (RobustDownloadService.downloadAsWord rd2 rsenv).events +
        overlayCount (RobustDownloadService.downloadAsWord rd2 rsenv).events = 1 ∧
      stageEvCount .error (RobustDownloadService.downloadAsWord rd2 rsenv).events = 0 ∧
      (RobustDownloadService.downloadAsWord rd2 rsenv).events.getLast?
        = some (.prog RobustDownloadService.wordCompleteProg)) ∧
     (isOkB (RobustDownloadService.downloadAsWord rd2 rsenv).result = false →
      stageEvCount .error (RobustDownloadService.downloadAsWord rd2 rsenv).events = 0 ∧
      stageEvCount .complete (RobustDownloadService.downloadAsWord rd2 rsenv).events = 0 ∧
      savedCount (RobustDownloadService.downloadAsWord rd2 rsenv).events +
        overlayCount (RobustDownloadService.downloadAsWord rd2 rsenv).events = 0)) :=
  ⟨DownloadService.basic_pdf_terminal env senv elementId,
   DownloadService.basic_word_terminal rd senv2,
   DownloadService.basic_png_terminal env2 blobOk senv3 elementId2,
   RobustDownloadService.robust_png_terminal penv,
   RobustDownloadService.robust_word_terminal rd2 rsenv⟩

end ResumeMaker

namespace ResumeMaker

/-- A basic capture environment in which every external call succeeds. -/
def pdfOkEnv : DownloadService.CaptureEnv :=
  { elementFound := true, elemW := 800, elemH := 600, canvas := .ok (1600, 1200) }

/-- A basic capture environment in which the target element is never found. -/
def pdfFailEnv : DownloadService.CaptureEnv :=
  { elementFound := false, elemW := 0, elemH := 0, canvas := .ok (0, 0) }

/-- A robust PNG environment in which every external call succeeds. -/
def pngAllOkEnv : Nat → RobustDownloadService.PngEnv :=
  fun _ => { detectOk := true, cap1 := .ok (), cap2 := .ok (), cap3 := .ok ()
             blobOk := true, save := ⟨true, true, 0⟩ }

/-- Witness for C6 at concrete environments: a successful and a failing basic
PDF export, a basic PNG export whose `toBlob` promise rejects with no `error`
event, a successful robust PNG export, and a failing robust Word export. -/
theorem c6_terminal_events_witness :
    (savedCount (DownloadService.downloadAsPDF pdfOkEnv ⟨true, true⟩ "resume-preview").1 = 1 ∧
     stageEvCount .complete
       (DownloadService.downloadAsPDF pdfOkEnv ⟨true, true⟩ "resume-preview").1 = 1 ∧
     stageEvCount .error
       (DownloadService.downloadAsPDF pdfOkEnv ⟨true, true⟩ "resume-preview").1 = 0 ∧
     (DownloadService.downloadAsPDF pdfOkEnv ⟨true, true⟩ "resume-preview").1.getLast?
       = some (.prog DownloadService.pdfCompleteProg)) ∧
    (stageEvCount .error
       (DownloadService.downloadAsPDF pdfFailEnv ⟨true, true⟩ "resume-preview").1 = 1 ∧
     stageEvCount .complete
       (DownloadService.downloadAsPDF pdfFailEnv ⟨true, true⟩ "resume-preview").1 = 0 ∧
     savedCount (DownloadService.downloadAsPDF pdfFailEnv ⟨true, true⟩ "resume-preview").1 = 0 ∧
     (DownloadService.downloadAsPDF pdfFailEnv ⟨true, true⟩ "resume-preview").1.getLast?
       = some (.prog (DownloadService.pdfErrorProg
           "Element with ID \"resume-preview\" not found within 5000ms"))) ∧
    (stageEvCount .error
       (DownloadService.downloadAsPNG pdfOkEnv false ⟨true, true⟩ "resume-preview").1 = 0 ∧
     stageEvCount .complete
       (DownloadService.downloadAsPNG pdfOkEnv false ⟨true, true⟩ "resume-preview").1 = 0 ∧
     savedCount
       (DownloadService.downloadAsPNG pdfOkEnv false ⟨true, true⟩ "resume-preview").1 = 0) ∧
    (stageEvCount .complete (RobustDownloadService.downloadAsPNG pngAllOkEnv).events = 1 ∧
     savedCount (RobustDownloadService.downloadAsPNG pngAllOkEnv).events +
       overlayCount (RobustDownloadService.downloadAsPNG pngAllOkEnv).events = 1 ∧
     stageEvCount .error (RobustDownloadService.downloadAsPNG pngAllOkEnv).events = 0 ∧
     (RobustDownloadService.downloadAsPNG pngAllOkEnv).events.getLast?
       = some (.prog RobustDownloadService.pngCompleteProg)) ∧
    (stageEvCount .error (RobustDownloadService.downloadAsWord rdEmptyName
        (fun _ => ⟨true, true, 0⟩)).events = 0 ∧
     stageEvCount .complete (RobustDownloadService.downloadAsWord rdEmptyName
        (fun _ => ⟨true, true, 0⟩)).events = 0 ∧
     savedCount (RobustDownloadService.downloadAsWord rdEmptyName
        (fun _ => ⟨true, true, 0⟩)).events +
       overlayCount (RobustDownloadService.downloadAsWord rdEmptyName
        (fun _ => ⟨true, true, 0⟩)).events = 0) :=
  ⟨(c6_terminal_events pdfOkEnv ⟨true, true⟩ "resume-preview" rdEmptyName ⟨true, true⟩
      pdfOkEnv true ⟨true, true⟩ "resume-preview" pngAllOkEnv rdEmptyName
      (fun _ => ⟨true, true, 0⟩)).1.1 (by decide),
   (c6_terminal_events pdfFailEnv ⟨true, true⟩ "resume-preview" rdEmptyName ⟨true, true⟩
      pdfOkEnv true ⟨true, true⟩ "resume-preview" pngAllOkEnv rdEmptyName
      (fun _ => ⟨true, true, 0⟩)).1.2 _ rfl,
   (c6_terminal_events pdfOkEnv ⟨true, true⟩ "resume-preview" rdEmptyName ⟨true, true⟩
      pdfOkEnv false ⟨true, true⟩ "resume-preview" pngAllOkEnv rdEmptyName
      (fun _ => ⟨true, true, 0⟩)).2.2.1.2.2 (by decide) _ rfl,
   (c6_terminal_events pdfOkEnv ⟨true, true⟩ "resume-preview" rdEmptyName ⟨true, true⟩
      pdfOkEnv true ⟨true, true⟩ "resume-preview" pngAllOkEnv rdEmptyName
      (fun _ => ⟨true, true, 0⟩)).2.2.2.1.1 (by decide),
   (c6_terminal_events pdfOkEnv ⟨true, true⟩ "resume-preview" rdEmptyName ⟨true, true⟩
      pdfOkEnv true ⟨true, true⟩ "resume-preview" pngAllOkEnv rdEmptyName
      (fun _ => ⟨true, true, 0⟩)).2.2.2.2.2 (by decide)⟩

end ResumeMaker

namespace ResumeMaker

/-- The claimed stage order: `preparing → detecting/loading → generating →
downloading → complete|error` (spec §5); `retrying` sits at attempt
boundaries. -/
def claimedStageRank : Stage → Nat
  | .preparing => 0
  | .detecting => 1
  | .loading => 1
  | .generating => 2
  | .downloading => 3
  | .complete => 4
  | .error => 4
  | .retrying => 0

/-- The stage order the robust exports actually follow within one attempt:
detection comes first, then preparation. -/
def robustStageRank : Stage → Nat
  | .retrying => 0
  | .detecting => 1
  | .preparing => 2
  | .loading => 3
  | .generating => 4
  | .downloading => 5
  | .complete => 6
  | .error => 6

@[simp] theorem stagesOf_nil : stagesOf [] = [] := rfl

@[simp] theorem stagesOf_append (l₁ l₂ : List Event) :
    stagesOf (l₁ ++ l₂) = stagesOf l₁ ++ stagesOf l₂ := by
  simp [stagesOf, List.filterMap_append]

@[simp] theorem robust_save_stagesOf (sv : RobustDownloadService.SaveEnv) :
    stagesOf (RobustDownloadService.createDownloadLink sv) = [] := by
  rcases sv with ⟨a, f, n⟩
  cases a <;> cases f <;> by_cases hn : n < 10485760 <;>
    simp [RobustDownloadService.createDownloadLink, stagesOf, hn]

@[simp] theorem basic_save_stagesOf (sv : DownloadService.SaveEnv) :
    stagesOf (DownloadService.createDownloadLink sv).1 = [] := by
  rcases sv with ⟨f, a⟩
  cases f <;> cases a <;> simp [DownloadService.createDownloadLink, stagesOf]

/-- Executable check that a stage list is non-decreasing under a rank. -/
def rankOrderedB (rank : Stage → Nat) : List Stage → Bool
  | [] => true
  | [_] => true
  | a :: b :: t => decide (rank a ≤ rank b) && rankOrderedB rank (b :: t)

/-- `rankOrderedB` decides the chain condition. -/
theorem rankOrderedB_iff (rank : Stage → Nat) :
    ∀ l : List Stage, rankOrderedB rank l = true ↔
      List.Chain' (fun a b => rank a ≤ rank b) l
  | [] => by simp [rankOrderedB]
  | [s] => by simp [rankOrderedB]
  | a :: b :: t => by
    rw [rankOrderedB, List.chain'_cons, Bool.and_eq_true, decide_eq_true_eq,
      rankOrderedB_iff rank (b :: t)]

/-- C8 counterexample: a fully successful robust PNG export emits `detecting`
before `preparing`, so its stage sequence is not non-decreasing in the
claimed order `preparing → detecting/loading → generating → downloading →
complete`. -/
theorem c8_counterexample :
    ¬ List.Chain' (fun a b => claimedStageRank a ≤ claimedStageRank b)
      (stagesOf (RobustDownloadService.downloadAsPNG pngAllOkEnv).events) := by
  intro h
  have hb := (rankOrderedB_iff claimedStageRank _).mpr h
  have hf : rankOrderedB claimedStageRank
      (stagesOf (RobustDownloadService.downloadAsPNG pngAllOkEnv).events) = false := by
    decide
  rw [hf] at hb
  exact Bool.false_ne_true hb

end ResumeMaker

namespace ResumeMaker

@[simp] theorem stagesOf_cons_prog (p : Prog) (l : List Event) :
    stagesOf (.prog p :: l) = p.stage :: stagesOf l := by
  simp [stagesOf]

@[simp] theorem stagesOf_cons_tried (m : SaveMethod) (l : List Event) :
    stagesOf (.tried m :: l) = stagesOf l := by
  simp [stagesOf]

@[simp] theorem stagesOf_cons_saved (m : SaveMethod) (l : List Event) :
    stagesOf (.saved m :: l) = stagesOf l := by
  simp [stagesOf]

@[simp] theorem stagesOf_cons_overlay (ms : Nat) (l : List Event) :
    stagesOf (.overlayShown ms :: l) = stagesOf l := by
  simp [stagesOf]

@[simp] theorem stagesOf_cons_docBuilt (l : List Event) :
    stagesOf (.docBuilt :: l) = stagesOf l := by
  simp [stagesOf]

/-- Unfolded form of `robust_save_stagesOf`, for matching after `stagesOf`
has been delta-reduced. -/
@[simp] theorem robust_save_filterMap_stages (sv : RobustDownloadService.SaveEnv) :
    List.filterMap
        (fun e => match e with | Event.prog p => some p.stage | _ => none)
        (RobustDownloadService.createDownloadLink sv) = [] :=
  robust_save_stagesOf sv

/-- Within one robust PNG attempt the emitted stages are non-decreasing in
the actual order `detecting → preparing → loading → generating → complete`. -/
theorem pngOpRun_stages_ordered (e : RobustDownloadService.PngEnv) :
    List.Chain' (fun a b => robustStageRank a ≤ robustStageRank b)
      (stagesOf (RobustDownloadService.pngOpRun e).events) := by
  apply (rankOrderedB_iff _ _).mp
  rcases e with ⟨d, c1, c2, c3, b, sv⟩
  cases d <;> rcases c1 with m1 | v1 <;> rcases c2 with m2 | v2 <;>
    rcases c3 with m3 | v3 <;> cases b <;>
    simp [RobustDownloadService.pngOpRun, RobustDownloadService.captureElementAsCanvas,
      RobustDownloadService.captureProg, rankOrderedB, robustStageRank]

/-- A robust PNG attempt body never emits a `retrying` progress event. -/
theorem pngOpRun_no_retrying (e : RobustDownloadService.PngEnv) :
    stageEvCount .retrying (RobustDownloadService.pngOpRun e).events = 0 := by
  rcases e with ⟨d, c1, c2, c3, b, sv⟩
  cases d <;> rcases c1 with m1 | v1 <;> rcases c2 with m2 | v2 <;>
    rcases c3 with m3 | v3 <;> cases b <;>
    simp [RobustDownloadService.pngOpRun, RobustDownloadService.captureElementAsCanvas,
      RobustDownloadService.captureProg]

/-- Within one robust Word attempt the emitted stages are non-decreasing. -/
theorem wordOpRun_stages_ordered (rd : ResumeData)
    (sv : RobustDownloadService.SaveEnv) :
    List.Chain' (fun a b => robustStageRank a ≤ robustStageRank b)
      (stagesOf (RobustDownloadService.wordOpRun rd sv).events) := by
  apply (rankOrderedB_iff _ _).mp
  by_cases hf : rd.personalInfo.fullName = "" <;>
    simp [RobustDownloadService.wordOpRun, hf, rankOrderedB, robustStageRank]

/-- A robust Word attempt body never emits a `retrying` progress event. -/
theorem wordOpRun_no_retrying (rd : ResumeData)
    (sv : RobustDownloadService.SaveEnv) :
    stageEvCount .retrying (RobustDownloadService.wordOpRun rd sv).events = 0 := by
  by_cases hf : rd.personalInfo.fullName = "" <;>
    simp [RobustDownloadService.wordOpRun, hf]

/-- The basic PDF export emits its stages in the claimed order
`preparing → generating → downloading → complete|error`. -/
theorem basic_pdf_stages_ordered (env : DownloadService.CaptureEnv)
    (senv : DownloadService.SaveEnv) (elementId : String) :
    List.Chain' (fun a b => claimedStageRank a ≤ claimedStageRank b)
      (stagesOf (DownloadService.downloadAsPDF env senv elementId).1) := by
  apply (rankOrderedB_iff _ _).mp
  rcases env with ⟨found, w, hh, cv⟩
  rcases senv with ⟨fs, an⟩
  rcases cv with m | ⟨cw, ch⟩ <;> cases found <;> cases fs <;> cases an <;>
    by_cases h1 : w = 0 ∨ hh = 0
  all_goals try by_cases h2 : cw = 0 ∨ ch = 0
  all_goals
    simp_all [DownloadService.downloadAsPDF, DownloadService.downloadAsPDFBody,
      DownloadService.createDownloadLink, rankOrderedB, claimedStageRank]

end ResumeMaker

namespace ResumeMaker

/-- C8 (amended): per attempt, the full-retry robust PNG export emits its
stages in the (actual) order `retrying? → detecting → preparing → loading →
generating → complete` — `detecting` precedes `preparing`, transposing the
claimed order — with at most one `retrying` event per attempt segment, at its
start; a successful run ends with exactly one `complete` event; a failed run
emits no `complete` and no `error` event. The basic PDF export emits stages
non-decreasing in the claimed order `preparing → generating → downloading →
complete|error`, ending in exactly one terminal `complete` (success) or
`error` (failure) event. -/
theorem c8_progress_ordering (penv : Nat → RobustDownloadService.PngEnv)
    (env : DownloadService.CaptureEnv) (senv : DownloadService.SaveEnv)
    (elementId : String) :
    (∀ seg ∈ (RobustDownloadService.downloadAsPNG penv).segments,
      List.Chain' (fun a b => robustStageRank a ≤ robustStageRank b) (stagesOf seg) ∧
      stageEvCount .retrying seg ≤ 1) ∧
    (isOkB (RobustDownloadService.downloadAsPNG penv).result = true →
      stageEvCount .complete (RobustDownloadService.downloadAsPNG penv).events = 1 ∧
      (RobustDownloadService.downloadAsPNG penv).events.getLast?
        = some (.prog RobustDownloadService.pngCompleteProg)) ∧
    (isOkB (RobustDownloadService.downloadAsPNG penv).result = false →
      stageEvCount .complete (RobustDownloadService.downloadAsPNG penv).events = 0 ∧
      stageEvCount .error (RobustDownloadService.downloadAsPNG penv).events = 0) ∧
    List.Chain' (fun a b => claimedStageRank a ≤ claimedStageRank b)
      (stagesOf (DownloadService.downloadAsPDF env senv elementId).1) ∧
    (isOkB (DownloadService.downloadAsPDF env senv elementId).2 = true →
      stageEvCount .complete (DownloadService.downloadAsPDF env senv elementId).1 = 1 ∧
      stageEvCount .error (DownloadService.downloadAsPDF env senv elementId).1 = 0 ∧
      (DownloadService.downloadAsPDF env senv elementId).1.getLast?
        = some (.prog DownloadService.pdfCompleteProg)) ∧
    (∀ m, (DownloadService.downloadAsPDF env senv elementId).2 = .error m →
      stageEvCount .error (DownloadService.downloadAsPDF env senv elementId).1 = 1 ∧
      stageEvCount .complete (DownloadService.downloadAsPDF env senv elementId).1 = 0 ∧
      (DownloadService.downloadAsPDF env senv elementId).1.getLast?
        = some (.prog (DownloadService.pdfErrorProg m))) := by
  refine ⟨?_, ?_, ?_, basic_pdf_stages_ordered env senv elementId, ?_, ?_⟩
  · intro seg hseg
    simp only [RobustDownloadService.downloadAsPNG,
      RobustDownloadService.executeWithRetry] at hseg
    have hshape := RobustDownloadService.aux_segments_shape robustRetryConfig
      (fun k => RobustDownloadService.pngOpRun (penv k)) "PNG generation"
      robustRetryConfig.maxAttempts 1 0 none 0 [] (by simp) seg hseg
    rcases hshape with ⟨k, hb | ⟨att, d, hb⟩⟩
    · subst hb
      exact ⟨pngOpRun_stages_ordered (penv k), by simp [pngOpRun_no_retrying (penv k)]⟩
    · subst hb
      constructor
      · rw [stagesOf_cons_prog]
        refine List.chain'_cons'.mpr ⟨?_, pngOpRun_stages_ordered (penv k)⟩
        intro y _
        exact Nat.zero_le _
      · simp [RobustDownloadService.retryingProg, pngOpRun_no_retrying (penv k)]
  · intro hok
    have h := (RobustDownloadService.robust_png_terminal penv).1 hok
    exact ⟨h.1, h.2.2.2⟩
  · intro hfail
    have h := (RobustDownloadService.robust_png_terminal penv).2 hfail
    exact ⟨h.2.1, h.1⟩
  · intro hok
    have h := (DownloadService.basic_pdf_terminal env senv elementId).1 hok
    exact ⟨h.2.1, h.2.2.1, h.2.2.2⟩
  · intro m hm
    have h := (DownloadService.basic_pdf_terminal env senv elementId).2 m hm
    exact ⟨h.1, h.2.1, h.2.2.2⟩

end ResumeMaker

namespace ResumeMaker

/-- Witness for C8 at concrete environments. -/
theorem c8_progress_ordering_witness :
    (List.Chain' (fun a b => robustStageRank a ≤ robustStageRank b)
      (stagesOf (RobustDownloadService.pngOpRun (pngAllOkEnv 1)).events) ∧
     stageEvCount .retrying (RobustDownloadService.pngOpRun (pngAllOkEnv 1)).events ≤ 1) ∧
    (stageEvCount .complete (RobustDownloadService.downloadAsPNG pngAllOkEnv).events = 1 ∧
     (RobustDownloadService.downloadAsPNG pngAllOkEnv).events.getLast?
       = some (.prog RobustDownloadService.pngCompleteProg)) ∧
    (stageEvCount .complete (DownloadService.downloadAsPDF pdfOkEnv ⟨true, true⟩
        "resume-preview").1 = 1 ∧
     stageEvCount .error (DownloadService.downloadAsPDF pdfOkEnv ⟨true, true⟩
        "resume-preview").1 = 0 ∧
     (DownloadService.downloadAsPDF pdfOkEnv ⟨true, true⟩ "resume-preview").1.getLast?
       = some (.prog DownloadService.pdfCompleteProg)) ∧
    (stageEvCount .error (DownloadService.downloadAsPDF pdfFailEnv ⟨true, true⟩
        "resume-preview").1 = 1 ∧
     stageEvCount .complete (DownloadService.downloadAsPDF pdfFailEnv ⟨true, true⟩
        "resume-preview").1 = 0 ∧
     (DownloadService.downloadAsPDF pdfFailEnv ⟨true, true⟩ "resume-preview").1.getLast?
       = some (.prog (DownloadService.pdfErrorProg
           "Element with ID \"resume-preview\" not found within 5000ms"))) :=
  ⟨(c8_progress_ordering pngAllOkEnv pdfOkEnv ⟨true, true⟩ "resume-preview").1
      (RobustDownloadService.pngOpRun (pngAllOkEnv 1)).events (by decide),
   (c8_progress_ordering pngAllOkEnv pdfOkEnv ⟨true, true⟩ "resume-preview").2.1
      (by decide),
   (c8_progress_ordering pngAllOkEnv pdfOkEnv ⟨true, true⟩ "resume-preview").2.2.2.2.1
      (by decide),
   (c8_progress_ordering pngAllOkEnv pdfFailEnv ⟨true, true⟩ "resume-preview").2.2.2.2.2
      _ rfl⟩

end ResumeMaker
